import Mathlib

/-!
Verification development for `lingam/experimental/cdg.py` (class
`CausalDataGenerator`).

The Python module is shallowly embedded here.  Pandas objects become finite
tables of exact integer-valued numeric cells and label cells (the claims at issue concern exact algebraic identities and control flow, never fractional magnitudes), scikit-learn estimators become opaque
strategy objects (the code under verification only ever calls
`fit` / `predict` / `predict_proba` / `classes_` on them, cf. spec section 6,
so they are modelled as records of functions), Python exceptions become an
explicit `Except` monad, and the numpy seeded random generator becomes an
explicit stream of uniform draws.  Every function in this file that carries a
`cdg.py` line reference is a direct translation of the corresponding Python
code.
-/

namespace Cdg

/-- Column dtype tag: pandas "category", a numeric dtype (int/float), or the
object dtype that results from storing raw labels without the categorical
recast. -/
inductive Dtype where
  | category
  | numeric
  | objectD
deriving DecidableEq, Repr

/-- A cell value: an exact numeric value, a missing value (NaN), or a
categorical/string label. -/
inductive Val where
  | num (q : ℤ)
  | nan
  | cat (s : String)
deriving DecidableEq, Repr

/-- The Python exception kinds raised by `cdg.py` and by the pandas/numpy
operations it invokes. -/
inductive PyError where
  | typeError (msg : String)
  | valueError (msg : String)
  | keyError (msg : String)
  | runtimeError (msg : String)
  | attributeError (msg : String)
deriving DecidableEq, Repr

/-- One named, dtyped column of a table. -/
structure ColSpec where
  name : String
  dtype : Dtype
  values : List Val
deriving DecidableEq, Repr

/-- A pandas DataFrame: a row index plus an ordered list of named columns. -/
structure DataFrame where
  index : List Int
  cols : List ColSpec
deriving DecidableEq, Repr

/-- A pandas Series: name, dtype, row index and values. -/
structure Series where
  name : String
  dtype : Dtype
  index : List Int
  values : List Val
deriving DecidableEq, Repr

def DataFrame.colNames (df : DataFrame) : List String :=
  df.cols.map (fun c => c.name)

def DataFrame.nrows (df : DataFrame) : Nat := df.index.length

/-- First column with the given name (pandas label lookup). -/
def findCol (n : String) : List ColSpec → Option ColSpec
  | [] => none
  | c :: cs => if c.name = n then some c else findCol n cs

def DataFrame.getCol (df : DataFrame) (n : String) : Option ColSpec :=
  findCol n df.cols

/-- Values of a named column (junk `[]` when the column is absent; only used
in statements about columns that exist). -/
def DataFrame.colVals (df : DataFrame) (n : String) : List Val :=
  match df.getCol n with
  | some c => c.values
  | none => []

/-- Dtype of a named column, as read by `X[name].dtype` in `cdg.py`. -/
def DataFrame.colDtype (df : DataFrame) (n : String) : Dtype :=
  match df.getCol n with
  | some c => c.dtype
  | none => Dtype.numeric

/-- Column selection `df[[n1, n2, ...]]`; raises KeyError when a label is
missing, as pandas does. -/
def selectCols (cs : List ColSpec) : List String → Except PyError (List ColSpec)
  | [] => .ok []
  | n :: ns =>
    match findCol n cs with
    | none => .error (.keyError n)
    | some c =>
      match selectCols cs ns with
      | .error e => .error e
      | .ok rest => .ok (c :: rest)

def DataFrame.selectE (df : DataFrame) (ns : List String) : Except PyError DataFrame :=
  match selectCols df.cols ns with
  | .error e => .error e
  | .ok cs => .ok { index := df.index, cols := cs }

/-- Series view of one column, `df[name]`. -/
def DataFrame.getSeriesE (df : DataFrame) (n : String) : Except PyError Series :=
  match df.getCol n with
  | none => .error (.keyError n)
  | some c => .ok { name := c.name, dtype := c.dtype, index := df.index, values := c.values }

/-- Dtype pandas infers for a freshly assigned array of values: object when
labels are present, a numeric dtype otherwise. -/
def inferDtype (vs : List Val) : Dtype :=
  if vs.any (fun v => match v with | .cat _ => true | _ => false) then Dtype.objectD
  else Dtype.numeric

def msgLenMismatch : String := "Length of values does not match length of index"

/-- Column assignment `df[n] = vs`.  Replaces an existing column (new dtype
inferred from the values) or appends a new one; raises when the value array
length does not match the row count, as pandas does. -/
def DataFrame.setColE (df : DataFrame) (n : String) (vs : List Val) : Except PyError DataFrame :=
  if vs.length = df.index.length then
    if (df.getCol n).isSome then
      .ok { df with cols := df.cols.map (fun c =>
              if c.name = n then { c with dtype := inferDtype vs, values := vs } else c) }
    else
      .ok { df with cols := df.cols ++ [{ name := n, dtype := inferDtype vs, values := vs }] }
  else .error (.valueError msgLenMismatch)

/-- Categorical recast `df[n] = pd.Categorical(df[n])` (cdg.py lines 213,
225, 243, 255): only
the dtype changes, the stored values stay as they are. -/
def DataFrame.toCategorical (df : DataFrame) (n : String) : DataFrame :=
  { df with cols := df.cols.map (fun c =>
      if c.name = n then { c with dtype := Dtype.category } else c) }

def msgAddCat : String := "unsupported operand type for categorical addition"

/-- Elementwise `series + np.array(predicted)` (cdg.py lines 217, 247):
numeric cells add, NaN propagates, label cells raise, and a length mismatch
raises as numpy broadcasting does. -/
def addVals : List Val → List ℤ → Except PyError (List Val)
  | [], [] => .ok []
  | v :: vs, q :: qs =>
    match v with
    | .num a => (addVals vs qs).map (fun r => Val.num (a + q) :: r)
    | .nan => (addVals vs qs).map (fun r => Val.nan :: r)
    | .cat _ => .error (.typeError msgAddCat)
  | _, _ => .error (.valueError msgLenMismatch)

/-- Elementwise `y - model.predict(X)` (cdg.py line 310), same conventions as
`addVals`. -/
def subVals : List Val → List ℤ → Except PyError (List Val)
  | [], [] => .ok []
  | v :: vs, q :: qs =>
    match v with
    | .num a => (subVals vs qs).map (fun r => Val.num (a - q) :: r)
    | .nan => (subVals vs qs).map (fun r => Val.nan :: r)
    | .cat _ => .error (.typeError msgAddCat)
  | _, _ => .error (.valueError msgLenMismatch)

/-- Column increment `generated[n] += np.array(predicted)` (cdg.py lines 217
and 247) applied to a named column. -/
def DataFrame.addToColE (df : DataFrame) (n : String) (qs : List ℤ) : Except PyError DataFrame :=
  match df.getCol n with
  | none => .error (.keyError n)
  | some c =>
    match addVals c.values qs with
    | .error e => .error e
    | .ok vs => df.setColE n vs

/-- Row values of one column reindexed by labels (general branch of `.loc`). -/
def reindexVals (oldIdx : List Int) (vs : List Val) : List Int → Except PyError (List Val)
  | [] => .ok []
  | i :: is =>
    match oldIdx.findIdx? (fun j => j = i) with
    | none => .error (.keyError msgLenMismatch)
    | some p =>
      match reindexVals oldIdx vs is with
      | .error e => .error e
      | .ok rest => .ok (vs.getD p Val.nan :: rest)

def reindexCols (oldIdx idx : List Int) : List ColSpec → Except PyError (List ColSpec)
  | [] => .ok []
  | c :: cs =>
    match reindexVals oldIdx c.values idx with
    | .error e => .error e
    | .ok vs =>
      match reindexCols oldIdx idx cs with
      | .error e => .error e
      | .ok rest => .ok ({ c with values := vs } :: rest)

/-- Reselection `df.loc[idx, ns]` (cdg.py line 257): select columns by label (KeyError on
a missing label) and align rows to the requested index.  When the requested
index equals the frame own index the rows are kept as they are. -/
def DataFrame.locSelectE (df : DataFrame) (idx : List Int) (ns : List String) :
    Except PyError DataFrame :=
  match selectCols df.cols ns with
  | .error e => .error e
  | .ok cs =>
    if idx = df.index then .ok { index := idx, cols := cs }
    else
      match reindexCols df.index idx cs with
      | .error e => .error e
      | .ok cs2 => .ok { index := idx, cols := cs2 }

/-- A fitted scikit-learn predictor, reduced to the capability set the code
under verification actually uses: `predict`, `predict_proba`, `classes_`
(spec section 6 lists these as the external collaborator contract). -/
structure Model where
  predict : DataFrame → List ℤ
  predictProba : DataFrame → List (List ℤ)
  classes : List String

/-- A caller-supplied unfitted estimator: the introspection flags read by
`_is_sklearn_estimator` plus its `fit` method, which may raise (modelled by
`Except String`) and otherwise yields the fitted predictor. -/
structure Estimator where
  isRegressor : Bool
  isClassifier : Bool
  hasPredictProba : Bool
  fit : DataFrame → Series → Except String Model

/-- Modelled from the spec: the scikit-learn default model constructions used
at cdg.py lines 285-305 (`LinearRegression`, `LogisticRegression`, optionally
wrapped in a one-hot `ColumnTransformer` pipeline).  The library is external
to the repository; spec section 4.1 says the encode-then-predict composite
"is treated as a single opaque model afterward", so each default training run
is one opaque function from training data to a fitted predictor. -/
structure SkLib where
  trainLinReg : DataFrame → Series → Model
  trainLogReg : DataFrame → Series → Model

/-- Numpy random state: a stream of uniform draws in `[0,1)` plus the
position of the next draw. -/
structure RNG where
  seq : Nat → ℤ
  pos : Nat

def RNG.next (r : RNG) : ℤ × RNG := (r.seq r.pos, { r with pos := r.pos + 1 })

/-- Weighted selection from a class list given one uniform draw: walk the
cumulative probabilities.  Extensionally this is
`np.random.RandomState.choice(classes, p=proba)` for a valid probability
vector. -/
def pick : List String → List ℤ → ℤ → String
  | [], _, _ => ""
  | [c], _, _ => c
  | c :: _ :: _, [], _ => c
  | c :: c2 :: cs, p :: ps, u => if u < p then c else pick (c2 :: cs) ps (u - p)

def msgChoiceEmpty : String := "a must be non-empty"
def msgChoiceSize : String := "a and p must have same size"
def msgChoiceNeg : String := "probabilities are not non-negative"
def msgChoiceSum : String := "probabilities do not sum to 1"

/-- Weighted draw `self._random_state.choice(classes_, p=proba_)` (cdg.py
lines 223, 253) with the argument validation numpy performs. -/
def choiceE (classes : List String) (p : List ℤ) (r : RNG) :
    Except PyError (String × RNG) :=
  if classes.isEmpty then .error (.valueError msgChoiceEmpty)
  else if classes.length ≠ p.length then .error (.valueError msgChoiceSize)
  else if p.any (fun q => q < 0) then .error (.valueError msgChoiceNeg)
  else if p.sum ≠ 1 then .error (.valueError msgChoiceSum)
  else
    let u := r.next
    .ok (pick classes p u.1, u.2)

/-- The per-row sampling loop `for proba_ in proba: predicted.append(choice ...)`
(cdg.py lines 221-223 and 251-253). -/
def sampleAll (m : Model) : List (List ℤ) → RNG → Except PyError (List String × RNG)
  | [], r => .ok ([], r)
  | p :: ps, r =>
    match choiceE m.classes p r with
    | .error e => .error e
    | .ok sr =>
      match sampleAll m ps sr.2 with
      | .error e => .error e
      | .ok rest => .ok (sr.1 :: rest.1, rest.2)

/-- A Python dict key: a string, or any non-string object. -/
inductive PyKey where
  | str (s : String)
  | nonStr
deriving DecidableEq, Repr

/-- An `interv_endog` / `interv_exog` argument: `None`, a non-dict object, or
a dict given as its insertion-ordered entry list. -/
inductive DictInput where
  | noneD
  | notDict
  | dict (entries : List (PyKey × List Val))
deriving Repr

def msgDictType : String := "shall be a dictionary."
def msgKeyStr : String := "A key shall be str."
def msgKeyAllowed : String := "Keys shall be cause or effect or a element of adjustments."
def msgMinSamples : String := "Found array with 0 sample(s)"
def msgShape0 : String := "shape[0] shall be the same as X.shape[0]."

/-- The key/value validation loop of `_check_data_dict` (cdg.py lines
322-331).  For each entry in order: the key must be a string, must be the
cause, the effect or an adjustment; the value goes through `check_array`
(which rejects an empty array) and must have as many entries as the fitted
data has rows.  Returns the string-keyed entries. -/
def checkEntries (allowed : List String) (nrows : Nat) :
    List (PyKey × List Val) → Except PyError (List (String × List Val))
  | [] => .ok []
  | (k, vs) :: rest =>
    match k with
    | .nonStr => .error (.typeError msgKeyStr)
    | .str s =>
      if s ∉ allowed then .error (.valueError msgKeyAllowed)
      else if vs.length = 0 then .error (.valueError msgMinSamples)
      else if vs.length ≠ nrows then .error (.valueError msgShape0)
      else (checkEntries allowed nrows rest).map (fun r => (s, vs) :: r)

/-- Embedding of `_check_data_dict` (cdg.py lines 315-333). -/
def checkDataDict (allowed : List String) (nrows : Nat) :
    DictInput → Except PyError (List (String × List Val))
  | .noneD => .ok []
  | .notDict => .error (.typeError msgDictType)
  | .dict es => checkEntries allowed nrows es

/-- Post-validation dict lookup (`interv_endog[name]`). -/
def lookupKey : List (PyKey × List Val) → String → Option (List Val)
  | [], _ => none
  | (PyKey.str s, vs) :: rest, n => if s = n then some vs else lookupKey rest n
  | (PyKey.nonStr, _) :: rest, n => lookupKey rest n

/-- One intervention-dict entry that passes every check of the
`_check_data_dict` loop: a string key among the allowed names, with a
non-empty value array of exactly the fitted row count. -/
def entryOkb (allowed : List String) (nrows : Nat) : PyKey × List Val → Bool
  | (PyKey.nonStr, _) => false
  | (PyKey.str s, vs) =>
    decide (s ∈ allowed) && (!(vs.length == 0)) && (vs.length == nrows)

def msgCatRegressor : String :=
  "The Object variable is categorical but the estimator is a regressor."
def msgContClassifier : String :=
  "The Object variable is not categorical but the estimator is a classifier."
def msgNeedProba : String := "Classification models shall have predict_proba()."

/-- Embedding of `_is_sklearn_estimator` (cdg.py lines 261-276): regressor/classifier
check against the target kind, then the `predict_proba` capability check for
categorical targets. -/
def isSklearnEstimator (est : Estimator) (isCategorical : Bool) : Except PyError Unit :=
  if isCategorical && est.isRegressor then .error (.typeError msgCatRegressor)
  else if !isCategorical && est.isClassifier then .error (.typeError msgContClassifier)
  else if isCategorical && !est.hasPredictProba then .error (.runtimeError msgNeedProba)
  else .ok ()

def checkOptEstimator (m : Option Estimator) (isCategorical : Bool) : Except PyError Unit :=
  match m with
  | some est => isSklearnEstimator est isCategorical
  | none => .ok ()

def strModelCause : String := "model_cause"
def strModelEffect : String := "model_effect"
def strFitSep : String := ".fit(): "

/-- Embedding of `_make_model` (cdg.py lines 278-313): fit the caller-supplied estimator
(wrapping its exception as a RuntimeError naming the model) or train the
default library model; then compute the residual series, which is all-NaN for
a categorical target and observed-minus-predicted otherwise, indexed and
named like the target. -/
def makeModel (lib : SkLib) (X : DataFrame) (y : Series) (nm : String)
    (model : Option Estimator) : Except PyError (Model × Series) :=
  match (match model with
         | some est =>
           match est.fit X y with
           | .error e => .error (PyError.runtimeError (nm ++ strFitSep ++ e))
           | .ok m => .ok m
         | none =>
           .ok (if y.dtype = Dtype.category then lib.trainLogReg X y
                else lib.trainLinReg X y) : Except PyError Model) with
  | .error e => .error e
  | .ok m =>
    match (if y.dtype = Dtype.category then .ok (List.replicate X.nrows Val.nan)
           else subVals y.values (m.predict X) : Except PyError (List Val)) with
    | .error e => .error e
    | .ok resids =>
      if resids.length = y.index.length then
        .ok (m, { name := y.name, dtype := Dtype.numeric, index := y.index, values := resids })
      else .error (.valueError msgLenMismatch)

/-- The `X` argument of `fit`: a DataFrame or any other object. -/
inductive FitInput where
  | notDF
  | df (X : DataFrame)

/-- The `adjustments` argument of `fit`: `None`, a flat sequence of names, or
a rectangular nested (2-D array-like) sequence of names. -/
inductive AdjInput where
  | noAdj
  | flat (names : List String)
  | nested (rows : List (List String))

def msgMinFeatures : String := "Found array with 1 feature(s) while a minimum of 2 is required."
def msgMinSamplesX : String := "Found array with 0 sample(s) while a minimum of 1 is required."
def msgXnotDF : String := "X shall be a pandas.DataFrame."
def msgCauseMissing : String := "cause isn't exist in X.columns."
def msgEffectMissing : String := "effect isn't exist in X.columns."

/-- Embedding of `check_array(X, dtype=None, ensure_min_features=2)`
(cdg.py line 79): at
least one row (the sklearn default `ensure_min_samples=1`), then at least two
columns. -/
def checkArrayX (X : DataFrame) : Except PyError Unit :=
  if X.index.length = 0 then .error (.valueError msgMinSamplesX)
  else if X.cols.length < 2 then .error (.valueError msgMinFeatures)
  else .ok ()

/-- Embedding of `check_array(adjustments, ensure_2d=False, dtype=None,
ensure_min_samples=0).reshape((-1,))` (cdg.py lines 88-96): `None` becomes an
empty array, a flat sequence passes through, and a rectangular 2-D sequence
is accepted and flattened by the reshape. -/
def checkArrayAdj : AdjInput → Except PyError (List String)
  | .noAdj => .ok []
  | .flat ns => .ok ns
  | .nested rows => .ok rows.flatten

/-- The object state written by a successful `fit` (cdg.py lines 117-127). -/
structure FittedState where
  X : DataFrame
  cause : String
  effect : String
  adjustments : List String
  model_cause : Option Model
  model_effect : Model
  error_cause : Series
  error_effect : Series

/-- Embedding of `CausalDataGenerator.fit` (cdg.py lines 42-129), parameterised by the
opaque scikit-learn default-model library.  Validation order, the
empty-adjustments special case for the cause, and the model/residual
construction follow the source line by line. -/
def fit (lib : SkLib) (Xin : FitInput) (cause effect : String) (adjustments : AdjInput)
    (model_cause model_effect : Option Estimator) : Except PyError FittedState :=
  match Xin with
  | .notDF => .error (.typeError msgXnotDF)
  | .df X =>
    match checkArrayX X with
    | .error e => .error e
    | .ok _ =>
      if cause ∈ X.colNames then
        if effect ∈ X.colNames then
          match checkArrayAdj adjustments with
          | .error e => .error e
          | .ok adj =>
            match checkOptEstimator model_cause (X.colDtype cause = Dtype.category) with
            | .error e => .error e
            | .ok _ =>
              match checkOptEstimator model_effect (X.colDtype effect = Dtype.category) with
              | .error e => .error e
              | .ok _ =>
                match (if adj.length = 0 then
                         match X.getSeriesE cause with
                         | .error e => .error e
                         | .ok yc => .ok ((none : Option Model), yc)
                       else
                         match X.selectE adj with
                         | .error e => .error e
                         | .ok F =>
                           match X.getSeriesE cause with
                           | .error e => .error e
                           | .ok yc =>
                             match makeModel lib F yc strModelCause model_cause with
                             | .error e => .error e
                             | .ok mr => .ok (some mr.1, mr.2) :
                        Except PyError (Option Model × Series)) with
                | .error e => .error e
                | .ok cpair =>
                  match X.selectE (cause :: adj) with
                  | .error e => .error e
                  | .ok Fe =>
                    match X.getSeriesE effect with
                    | .error e => .error e
                    | .ok ye =>
                      match makeModel lib Fe ye strModelEffect model_effect with
                      | .error e => .error e
                      | .ok er =>
                        .ok { X := X, cause := cause, effect := effect,
                              adjustments := adj,
                              model_cause := cpair.1, model_effect := er.1,
                              error_cause := cpair.2, error_effect := er.2 }
        else .error (.valueError msgEffectMissing)
      else .error (.valueError msgCauseMissing)

/-- A custom generative callable (`cause_model` / `effect_model` argument of
`generate`): receives the feature sub-frame and the current noise series and
either raises (`Except.error`) or returns the regenerated value array.  The
caller extra `*_model_args` object is already closed over. -/
def Callable : Type := DataFrame → Series → Except String (List Val)

def wrapCauseModel (e : String) : String := "Exception: cause_model: " ++ e
def wrapEffectModel (e : String) : String := "Exception: effect_model: " ++ e

def msgNonePredict : String := "NoneType object has no attribute predict"
def msgNonePredictProba : String := "NoneType object has no attribute predict_proba"

/-- One variable-resolution block of `generate` (cause: cdg.py lines 197-225,
effect: lines 227-255).  Priority: endogenous intervention outright, else the
custom callable (its exception re-raised as a named RuntimeError), else the
fitted model: continuous targets get the prediction added to the noise
column, categorical targets get per-row weighted resampling over the
classifier classes.  Accessing `.predict` / `.predict_proba` on an absent
(`None`) model raises AttributeError, exactly as Python attribute lookup
does. -/
def resolveVar (Xorig : DataFrame) (vn : String) (featNames : List String)
    (modelOpt : Option Model) (endog : List (String × List Val))
    (custom : Option Callable) (wrapMsg : String → String)
    (g : DataFrame) (rng : RNG) : Except PyError (DataFrame × RNG) :=
  match endog.lookup vn with
  | some vs =>
    match g.setColE vn vs with
    | .error e => .error e
    | .ok g2 => .ok (g2, rng)
  | none =>
    match custom with
    | some f =>
      match g.selectE featNames with
      | .error e => .error e
      | .ok F =>
        match g.getSeriesE vn with
        | .error e => .error e
        | .ok cur =>
          match f F cur with
          | .error e => .error (.runtimeError (wrapMsg e))
          | .ok vs =>
            match g.setColE vn vs with
            | .error e => .error e
            | .ok g2 =>
              .ok (if Xorig.colDtype vn = Dtype.category then g2.toCategorical vn else g2, rng)
    | none =>
      if Xorig.colDtype vn ≠ Dtype.category then
        match modelOpt with
        | none => .error (.attributeError msgNonePredict)
        | some m =>
          match g.selectE featNames with
          | .error e => .error e
          | .ok F =>
            match g.addToColE vn (m.predict F) with
            | .error e => .error e
            | .ok g2 => .ok (g2, rng)
      else
        match modelOpt with
        | none => .error (.attributeError msgNonePredictProba)
        | some m =>
          match g.selectE featNames with
          | .error e => .error e
          | .ok F =>
            match sampleAll m (m.predictProba F) rng with
            | .error e => .error e
            | .ok lr =>
              match g.setColE vn (lr.1.map Val.cat) with
              | .error e => .error e
              | .ok g2 => .ok (g2.toCategorical vn, lr.2)

/-- The exogenous-intervention loop (cdg.py lines 194-195): overwrite each
named column with its override array, in dict order. -/
def applyExog (g : DataFrame) : List (String × List Val) → Except PyError DataFrame
  | [] => .ok g
  | (n, vs) :: rest =>
    match g.setColE n vs with
    | .error e => .error e
    | .ok g2 => applyExog g2 rest

/-- Embedding of `CausalDataGenerator.generate` (cdg.py lines 131-259): validate both
intervention dicts, build the working copy over cause/effect/adjustments,
seed cause and effect with their residual series, apply exogenous overrides,
resolve the cause then the effect, and reselect to the original index and
column set. -/
def generate (st : FittedState) (rng : RNG) (interv_endog interv_exog : DictInput)
    (cause_model effect_model : Option Callable) : Except PyError (DataFrame × RNG) :=
  match checkDataDict (st.cause :: st.effect :: st.adjustments) st.X.nrows interv_endog with
  | .error e => .error e
  | .ok endog =>
    match checkDataDict (st.cause :: st.effect :: st.adjustments) st.X.nrows interv_exog with
    | .error e => .error e
    | .ok exog =>
      match st.X.selectE (st.cause :: st.effect :: st.adjustments) with
      | .error e => .error e
      | .ok g0 =>
        match g0.setColE st.cause st.error_cause.values with
        | .error e => .error e
        | .ok g1 =>
          match g1.setColE st.effect st.error_effect.values with
          | .error e => .error e
          | .ok g2 =>
            match applyExog g2 exog with
            | .error e => .error e
            | .ok g3 =>
              match resolveVar st.X st.cause st.adjustments st.model_cause endog
                      cause_model wrapCauseModel g3 rng with
              | .error e => .error e
              | .ok cr =>
                match resolveVar st.X st.effect (st.cause :: st.adjustments)
                        (some st.model_effect) endog effect_model wrapEffectModel
                        cr.1 cr.2 with
                | .error e => .error e
                | .ok er =>
                  match er.1.locSelectE st.X.index st.X.colNames with
                  | .error e => .error e
                  | .ok out => .ok (out, er.2)

/-- Success test on `Except` usable in closed decidable statements about results
whose payload contains opaque model functions. -/
def isOkb {α : Type} : Except PyError α → Bool
  | .ok _ => true
  | .error _ => false

/-- Error-kind tests for closed statements. -/
def isValueErrorResult {α : Type} : Except PyError α → Bool
  | .error (.valueError _) => true
  | _ => false

def isTypeErrorResult {α : Type} : Except PyError α → Bool
  | .error (.typeError _) => true
  | _ => false

/-- Run `generate` on the state produced by a `fit` call, propagating a fit
failure (used only to phrase closed concrete statements). -/
def generateAfterFit (fe : Except PyError FittedState) (rng : RNG)
    (interv_endog interv_exog : DictInput)
    (cause_model effect_model : Option Callable) : Except PyError (DataFrame × RNG) :=
  match fe with
  | .error e => .error e
  | .ok st => generate st rng interv_endog interv_exog cause_model effect_model

/-- Classes of an optional model (empty for an absent model). -/
def optClasses (m : Option Model) : List String :=
  match m with
  | some mm => mm.classes
  | none => []

/-! ### Concrete scenario objects

Small closed instances used by witnesses and counterexamples: column names,
a trivially behaved caller-supplied estimator, a trivially behaved opaque
default-model library, and a few data frames. -/

def nmC : String := "c"
def nmA : String := "a"
def nmB : String := "b"
def nmE : String := "e"
def nmZ : String := "z"
def nmW : String := "w"
def strU : String := "u"
def strX : String := "x"
def strY : String := "y"
def strP : String := "p"
def strQ : String := "q"
def strBoom : String := "boom"
def strCBoom : String := "cboom"
def strEBoom : String := "eboom"

/-- A fitted predictor that predicts 0 for every row, puts all class
probability on the single class `"u"`, for every input. -/
def constModel : Model where
  predict := fun df => List.replicate df.index.length 0
  predictProba := fun df => List.replicate df.index.length [1]
  classes := [strU]

/-- A caller-suppliable regressor whose fit succeeds and yields `constModel`. -/
def estReg : Estimator where
  isRegressor := true
  isClassifier := false
  hasPredictProba := false
  fit := fun _ _ => .ok constModel

/-- A caller-suppliable regressor whose fit raises. -/
def estBad : Estimator where
  isRegressor := true
  isClassifier := false
  hasPredictProba := false
  fit := fun _ _ => .error strBoom

/-- Custom generative callables that raise. -/
def badCauseCallable : Callable := fun _ _ => .error strCBoom
def badEffectCallable : Callable := fun _ _ => .error strEBoom

/-- Opaque default-model library whose training runs all yield `constModel`. -/
def lib0 : SkLib where
  trainLinReg := fun _ _ => constModel
  trainLogReg := fun _ _ => constModel

def rng0 : RNG where
  seq := fun _ => 0
  pos := 0

/-- Continuous scenario: cause `"c"`, adjustment `"a"`, effect `"e"`. -/
def XA : DataFrame where
  index := [10, 11]
  cols := [{ name := nmC, dtype := Dtype.numeric, values := [.num 5, .num 7] },
           { name := nmA, dtype := Dtype.numeric, values := [.num 1, .num 2] },
           { name := nmE, dtype := Dtype.numeric, values := [.num 3, .num 4] }]

def fitA : Except PyError FittedState :=
  fit lib0 (.df XA) nmC nmE (.flat [nmA]) none none

def stA : FittedState where
  X := XA
  cause := nmC
  effect := nmE
  adjustments := [nmA]
  model_cause := some constModel
  model_effect := constModel
  error_cause := { name := nmC, dtype := Dtype.numeric, index := [10, 11],
                   values := [.num 5, .num 7] }
  error_effect := { name := nmE, dtype := Dtype.numeric, index := [10, 11],
                    values := [.num 3, .num 4] }

/-- Like `XA` but with an extra column `"z"` that is neither cause, effect
nor adjustment. -/
def XB : DataFrame where
  index := [10, 11]
  cols := [{ name := nmC, dtype := Dtype.numeric, values := [.num 5, .num 7] },
           { name := nmA, dtype := Dtype.numeric, values := [.num 1, .num 2] },
           { name := nmE, dtype := Dtype.numeric, values := [.num 3, .num 4] },
           { name := nmZ, dtype := Dtype.numeric, values := [.num 6, .num 8] }]

def fitB : Except PyError FittedState :=
  fit lib0 (.df XB) nmC nmE (.flat [nmA]) none none

/-- Categorical scenario: categorical cause and effect, numeric adjustment. -/
def XD : DataFrame where
  index := [20, 21]
  cols := [{ name := nmC, dtype := Dtype.category, values := [.cat strX, .cat strY] },
           { name := nmA, dtype := Dtype.numeric, values := [.num 1, .num 2] },
           { name := nmE, dtype := Dtype.category, values := [.cat strP, .cat strQ] }]

def fitD : Except PyError FittedState :=
  fit lib0 (.df XD) nmC nmE (.flat [nmA]) none none

def stD : FittedState where
  X := XD
  cause := nmC
  effect := nmE
  adjustments := [nmA]
  model_cause := some constModel
  model_effect := constModel
  error_cause := { name := nmC, dtype := Dtype.numeric, index := [20, 21],
                   values := [.nan, .nan] }
  error_effect := { name := nmE, dtype := Dtype.numeric, index := [20, 21],
                    values := [.nan, .nan] }

/-- One-column frame (fails the minimum-features check). -/
def X1 : DataFrame where
  index := [0]
  cols := [{ name := nmC, dtype := Dtype.numeric, values := [.num 1] }]

/-- Four-column frame for the nested-adjustments counterexample. -/
def XAB : DataFrame where
  index := [10, 11]
  cols := [{ name := nmC, dtype := Dtype.numeric, values := [.num 5, .num 7] },
           { name := nmA, dtype := Dtype.numeric, values := [.num 1, .num 2] },
           { name := nmB, dtype := Dtype.numeric, values := [.num 0, .num 1] },
           { name := nmE, dtype := Dtype.numeric, values := [.num 3, .num 4] }]

/-- The table `generate` produces from `stD` with no interventions: both
categorical columns resampled to the classifier single class. -/
def tD : DataFrame where
  index := [20, 21]
  cols := [{ name := nmC, dtype := Dtype.category, values := [.cat strU, .cat strU] },
           { name := nmA, dtype := Dtype.numeric, values := [.num 1, .num 2] },
           { name := nmE, dtype := Dtype.category, values := [.cat strU, .cat strU] }]

/-- The table `generate` produces from `stA` when both cause and effect are
endogenously overridden. -/
def tC4 : DataFrame where
  index := [10, 11]
  cols := [{ name := nmC, dtype := Dtype.numeric, values := [.num 9, .num 9] },
           { name := nmA, dtype := Dtype.numeric, values := [.num 1, .num 2] },
           { name := nmE, dtype := Dtype.numeric, values := [.num 8, .num 8] }]

/-! ### Library lemmas about the table primitives -/

theorem findCol_name {n : String} {cs : List ColSpec} {c : ColSpec}
    (h : findCol n cs = some c) : c.name = n := by
  induction cs with
  | nil => simp [findCol] at h
  | cons d ds ih =>
    by_cases hd : d.name = n
    · simp [findCol, hd] at h
      rw [← h]
      exact hd
    · simp [findCol, hd] at h
      exact ih h

theorem findCol_isSome_iff_mem {n : String} {cs : List ColSpec} :
    (findCol n cs).isSome = true ↔ n ∈ cs.map (fun c => c.name) := by
  induction cs with
  | nil => simp [findCol]
  | cons d ds ih =>
    by_cases hd : d.name = n
    · simp [findCol, hd]
    · simp [findCol, hd, ih, Ne.symm hd]

theorem selectCols_names {cs : List ColSpec} {ns : List String} {l : List ColSpec}
    (h : selectCols cs ns = .ok l) : l.map (fun c => c.name) = ns := by
  induction ns generalizing l with
  | nil =>
    simp [selectCols] at h
    simp [← h]
  | cons n ns2 ih =>
    unfold selectCols at h
    cases hf : findCol n cs with
    | none => rw [hf] at h; exact absurd h (by simp)
    | some c =>
      rw [hf] at h
      cases hrest : selectCols cs ns2 with
      | error e => rw [hrest] at h; exact absurd h (by simp)
      | ok rest =>
        rw [hrest] at h
        simp at h
        rw [← h]
        simp [findCol_name hf, ih hrest]

theorem findCol_selectCols {cs : List ColSpec} {ns : List String} {l : List ColSpec}
    (h : selectCols cs ns = .ok l) (v : String) :
    findCol v l = if v ∈ ns then findCol v cs else none := by
  induction ns generalizing l with
  | nil =>
    simp [selectCols] at h
    subst h
    simp [findCol]
  | cons n ns2 ih =>
    unfold selectCols at h
    cases hf : findCol n cs with
    | none => rw [hf] at h; exact absurd h (by simp)
    | some c =>
      rw [hf] at h
      cases hrest : selectCols cs ns2 with
      | error e => rw [hrest] at h; exact absurd h (by simp)
      | ok rest =>
        rw [hrest] at h
        simp at h
        rw [← h]
        by_cases hv : v = n
        · subst hv
          simp [findCol, findCol_name hf, hf]
        · simp only [findCol]
          rw [if_neg (show ¬c.name = v by rw [findCol_name hf]; exact fun hh => hv hh.symm)]
          rw [ih hrest]
          simp [hv]

theorem selectCols_congr {cs1 cs2 : List ColSpec} {ns : List String}
    (h : ∀ n ∈ ns, findCol n cs1 = findCol n cs2) :
    selectCols cs1 ns = selectCols cs2 ns := by
  induction ns with
  | nil => rfl
  | cons n ns2 ih =>
    unfold selectCols
    rw [h n (by simp), ih (fun m hm => h m (by simp [hm]))]

/-- Behaviour of `findCol` through a name-preserving conditional rewrite of the matching
columns. -/
theorem findCol_mapIf_eq {n : String} {cs : List ColSpec} {f : ColSpec → ColSpec}
    (hf : ∀ c, (f c).name = c.name) :
    findCol n (cs.map (fun c => if c.name = n then f c else c)) =
      (findCol n cs).map f := by
  induction cs with
  | nil => simp [findCol]
  | cons d ds ih =>
    by_cases hd : d.name = n
    · simp [findCol, hd, hf]
    · simp [findCol, hd, ih]

theorem findCol_mapIf_ne {n v : String} {cs : List ColSpec} {f : ColSpec → ColSpec}
    (hf : ∀ c, (f c).name = c.name) (hv : v ≠ n) :
    findCol v (cs.map (fun c => if c.name = n then f c else c)) = findCol v cs := by
  induction cs with
  | nil => simp [findCol]
  | cons d ds ih =>
    simp only [List.map_cons]
    by_cases hd : d.name = n
    · rw [if_pos hd]
      simp only [findCol]
      rw [if_neg (show ¬(f d).name = v by rw [hf d, hd]; exact fun h => hv h.symm),
          if_neg (show ¬d.name = v by rw [hd]; exact fun h => hv h.symm)]
      exact ih
    · rw [if_neg hd]
      simp only [findCol]
      by_cases hdv : d.name = v
      · rw [if_pos hdv, if_pos hdv]
      · rw [if_neg hdv, if_neg hdv]
        exact ih

theorem findCol_append_of_none {n : String} {cs l : List ColSpec}
    (h : findCol n cs = none) : findCol n (cs ++ l) = findCol n l := by
  induction cs with
  | nil => simp
  | cons d ds ih =>
    by_cases hd : d.name = n
    · simp [findCol, hd] at h
    · simp [findCol, hd] at h ⊢
      exact ih h

theorem findCol_append_of_some {n : String} {cs l : List ColSpec} {c : ColSpec}
    (h : findCol n cs = some c) : findCol n (cs ++ l) = some c := by
  induction cs with
  | nil => simp [findCol] at h
  | cons d ds ih =>
    by_cases hd : d.name = n
    · simp [findCol, hd] at h ⊢
      exact h
    · simp [findCol, hd] at h ⊢
      exact ih h

theorem setColE_ok_index {df : DataFrame} {n : String} {vs : List Val} {g : DataFrame}
    (h : df.setColE n vs = .ok g) : g.index = df.index := by
  unfold DataFrame.setColE at h
  split at h
  · split at h <;> (simp at h; rw [← h])
  · exact absurd h (by simp)

theorem setColE_ok_len {df : DataFrame} {n : String} {vs : List Val} {g : DataFrame}
    (h : df.setColE n vs = .ok g) : vs.length = df.index.length := by
  unfold DataFrame.setColE at h
  split at h
  · assumption
  · exact absurd h (by simp)

theorem setColE_getCol_self {df : DataFrame} {n : String} {vs : List Val} {g : DataFrame}
    (h : df.setColE n vs = .ok g) :
    g.getCol n = some { name := n, dtype := inferDtype vs, values := vs } := by
  unfold DataFrame.setColE at h
  split at h
  · split at h
    · simp at h
      rw [← h]
      unfold DataFrame.getCol
      rename_i hsome
      have h2 := @findCol_mapIf_eq n df.cols
        (fun c => { name := c.name, dtype := inferDtype vs, values := vs }) (fun c => rfl)
      rw [h2]
      unfold DataFrame.getCol at hsome
      cases hf : findCol n df.cols with
      | none => rw [hf] at hsome; simp at hsome
      | some c =>
        have hname := findCol_name hf
        simp [hname]
    · simp at h
      rw [← h]
      unfold DataFrame.getCol
      rename_i hnone
      unfold DataFrame.getCol at hnone
      cases hf : findCol n df.cols with
      | some c => rw [hf] at hnone; simp at hnone
      | none =>
        rw [findCol_append_of_none hf]
        simp [findCol]
  · exact absurd h (by simp)

theorem setColE_getCol_ne {df : DataFrame} {n v : String} {vs : List Val} {g : DataFrame}
    (h : df.setColE n vs = .ok g) (hv : v ≠ n) : g.getCol v = df.getCol v := by
  unfold DataFrame.setColE at h
  split at h
  · split at h
    · simp at h
      rw [← h]
      unfold DataFrame.getCol
      exact findCol_mapIf_ne (fun c => rfl) hv
    · simp at h
      rw [← h]
      unfold DataFrame.getCol
      cases hf : findCol v df.cols with
      | some c => exact findCol_append_of_some hf
      | none =>
        rw [findCol_append_of_none hf]
        simp [findCol]
        exact fun hh => hv hh.symm
  · exact absurd h (by simp)

theorem toCategorical_index {df : DataFrame} {n : String} :
    (df.toCategorical n).index = df.index := rfl

theorem toCategorical_getCol_self {df : DataFrame} {n : String} :
    (df.toCategorical n).getCol n =
      (df.getCol n).map (fun c => { c with dtype := Dtype.category }) := by
  unfold DataFrame.toCategorical DataFrame.getCol
  exact findCol_mapIf_eq (fun c => rfl)

theorem toCategorical_getCol_ne {df : DataFrame} {n v : String} (hv : v ≠ n) :
    (df.toCategorical n).getCol v = df.getCol v := by
  unfold DataFrame.toCategorical DataFrame.getCol
  exact findCol_mapIf_ne (fun c => rfl) hv

theorem addToColE_ok_inv {df : DataFrame} {n : String} {qs : List ℤ} {g : DataFrame}
    (h : df.addToColE n qs = .ok g) :
    ∃ c vs, df.getCol n = some c ∧ addVals c.values qs = .ok vs ∧
      df.setColE n vs = .ok g := by
  unfold DataFrame.addToColE at h
  split at h
  · exact absurd h (by simp)
  · rename_i c hc
    split at h
    · exact absurd h (by simp)
    · rename_i vs ha
      exact ⟨c, vs, hc, ha, h⟩

/-- The residual/re-addition cancellation: if `rs = ys - qs` elementwise then
`rs + qs = ys` elementwise (NaN cells stay NaN on both sides). -/
theorem subVals_addVals_cancel {ys : List Val} {qs : List ℤ} {rs : List Val}
    (h : subVals ys qs = .ok rs) : addVals rs qs = .ok ys := by
  induction ys generalizing qs rs with
  | nil =>
    cases qs with
    | nil => simp [subVals] at h; subst h; rfl
    | cons q qt => simp [subVals] at h
  | cons y yt ih =>
    cases qs with
    | nil => simp [subVals] at h
    | cons q qt =>
      cases y with
      | num a =>
        unfold subVals at h
        cases hs : subVals yt qt with
        | error e => rw [hs] at h; exact absurd h (by simp [Except.map])
        | ok rt =>
          rw [hs] at h
          simp [Except.map] at h
          subst h
          unfold addVals
          rw [ih hs]
          simp [Except.map]
      | nan =>
        unfold subVals at h
        cases hs : subVals yt qt with
        | error e => rw [hs] at h; exact absurd h (by simp [Except.map])
        | ok rt =>
          rw [hs] at h
          simp [Except.map] at h
          subst h
          unfold addVals
          rw [ih hs]
          simp [Except.map]
      | cat s => simp [subVals] at h

theorem subVals_no_cat {ys : List Val} {qs : List ℤ} {rs : List Val}
    (h : subVals ys qs = .ok rs) :
    ∀ v ∈ rs, (match v with | Val.cat _ => true | _ => false) = false := by
  induction ys generalizing qs rs with
  | nil =>
    cases qs with
    | nil => simp [subVals] at h; subst h; simp
    | cons q qt => simp [subVals] at h
  | cons y yt ih =>
    cases qs with
    | nil => simp [subVals] at h
    | cons q qt =>
      cases y with
      | num a =>
        unfold subVals at h
        cases hs : subVals yt qt with
        | error e => rw [hs] at h; exact absurd h (by simp [Except.map])
        | ok rt =>
          rw [hs] at h
          simp [Except.map] at h
          subst h
          intro v hv
          rcases List.mem_cons.mp hv with h1 | h2
          · subst h1; rfl
          · exact ih hs v h2
      | nan =>
        unfold subVals at h
        cases hs : subVals yt qt with
        | error e => rw [hs] at h; exact absurd h (by simp [Except.map])
        | ok rt =>
          rw [hs] at h
          simp [Except.map] at h
          subst h
          intro v hv
          rcases List.mem_cons.mp hv with h1 | h2
          · subst h1; rfl
          · exact ih hs v h2
      | cat s => simp [subVals] at h

/-- Residuals of a continuous target carry no label cells, so pandas infers a
numeric dtype for the column they are written into. -/
theorem subVals_inferDtype {ys : List Val} {qs : List ℤ} {rs : List Val}
    (h : subVals ys qs = .ok rs) : inferDtype rs = Dtype.numeric := by
  unfold inferDtype
  rw [if_neg]
  simp only [List.any_eq_true, not_exists]
  intro v hc
  have h2 := subVals_no_cat h v hc.1
  rw [h2] at hc
  exact Bool.false_ne_true hc.2

/-! ### Sampling, dict validation, exogenous loop -/

theorem pick_mem {cs : List String} {ps : List ℤ} {u : ℤ} (h : cs ≠ []) :
    pick cs ps u ∈ cs := by
  induction cs generalizing ps u with
  | nil => exact absurd rfl h
  | cons c ct ih =>
    cases ct with
    | nil => simp [pick]
    | cons c2 cs2 =>
      cases ps with
      | nil => simp [pick]
      | cons p pt =>
        unfold pick
        by_cases hu : u < p
        · simp [hu]
        · simp only [if_neg hu]
          exact List.mem_cons_of_mem c (ih (by simp))

theorem choiceE_ok_mem {cs : List String} {p : List ℤ} {r : RNG} {sr : String × RNG}
    (h : choiceE cs p r = .ok sr) : sr.1 ∈ cs := by
  unfold choiceE at h
  split at h
  · exact absurd h (by simp)
  · split at h
    · exact absurd h (by simp)
    · split at h
      · exact absurd h (by simp)
      · split at h
        · exact absurd h (by simp)
        · simp at h
          rename_i hne _ _ _
          rw [← h]
          exact pick_mem (by simpa using hne)

theorem sampleAll_ok_mem {m : Model} {ps : List (List ℤ)} {r : RNG}
    {lr : List String × RNG} (h : sampleAll m ps r = .ok lr) :
    ∀ s ∈ lr.1, s ∈ m.classes := by
  induction ps generalizing r lr with
  | nil =>
    simp [sampleAll] at h
    rw [← h]
    simp
  | cons p pt ih =>
    unfold sampleAll at h
    cases hc : choiceE m.classes p r with
    | error e => rw [hc] at h; exact absurd h (by simp)
    | ok sr =>
      rw [hc] at h
      dsimp only at h
      cases hrest : sampleAll m pt sr.2 with
      | error e => rw [hrest] at h; exact absurd h (by simp)
      | ok rest =>
        rw [hrest] at h
        simp at h
        intro s hs
        rw [← h] at hs
        simp at hs
        rcases hs with h1 | h2
        · rw [h1]; exact choiceE_ok_mem hc
        · exact ih hrest s h2

theorem checkEntries_ok_lookup {allowed : List String} {nrows : Nat}
    {es : List (PyKey × List Val)} {l : List (String × List Val)}
    (h : checkEntries allowed nrows es = .ok l) (v : String) :
    l.lookup v = lookupKey es v := by
  induction es generalizing l with
  | nil =>
    simp [checkEntries] at h
    subst h
    rfl
  | cons e et ih =>
    match e with
    | (PyKey.nonStr, vs) => simp [checkEntries] at h
    | (PyKey.str s, vs) =>
      unfold checkEntries at h
      dsimp only at h
      by_cases hallow : s ∉ allowed
      · rw [if_pos hallow] at h; exact absurd h (by simp)
      · rw [if_neg hallow] at h
        by_cases hlen0 : vs.length = 0
        · rw [if_pos hlen0] at h; exact absurd h (by simp)
        · rw [if_neg hlen0] at h
          by_cases hlen : vs.length ≠ nrows
          · rw [if_pos hlen] at h; exact absurd h (by simp)
          · rw [if_neg hlen] at h
            cases hrest : checkEntries allowed nrows et with
            | error e2 => rw [hrest] at h; exact absurd h (by simp [Except.map])
            | ok rest =>
              rw [hrest] at h
              simp [Except.map] at h
              subst h
              unfold lookupKey
              by_cases hv : s = v
              · subst hv
                simp [List.lookup]
              · rw [if_neg hv]
                have hbeq : (v == s) = false := by
                  simp
                  exact fun hh => hv hh.symm
                simp [List.lookup, hbeq]
                exact ih hrest

/-- Entries that pass every check are consumed silently, so the error raised
by the validation loop is the one of the first offending entry, wherever it
sits in the dict. -/
theorem checkEntries_append_error {allowed : List String} {nrows : Nat}
    {pre rest : List (PyKey × List Val)} {e : PyError}
    (hpre : ∀ p ∈ pre, entryOkb allowed nrows p = true)
    (hrest : checkEntries allowed nrows rest = .error e) :
    checkEntries allowed nrows (pre ++ rest) = .error e := by
  induction pre with
  | nil => simpa using hrest
  | cons p pt ih =>
    have hp := hpre p (by simp)
    match p with
    | (PyKey.nonStr, vs) => simp [entryOkb] at hp
    | (PyKey.str s, vs) =>
      simp [entryOkb, and_assoc] at hp
      obtain ⟨hs, h0, hn⟩ := hp
      show checkEntries allowed nrows ((PyKey.str s, vs) :: (pt ++ rest)) = .error e
      unfold checkEntries
      dsimp only
      rw [if_neg (show ¬(s ∉ allowed) from fun hq => hq hs),
        if_neg (fun hq => h0 (List.length_eq_zero.mp hq)),
        if_neg (fun hq => hq hn),
        ih (fun q hq => hpre q (by simp [hq]))]
      rfl

theorem checkEntries_head_nonStr {allowed : List String} {nrows : Nat}
    {vs : List Val} {rest : List (PyKey × List Val)} :
    checkEntries allowed nrows ((PyKey.nonStr, vs) :: rest) =
      .error (.typeError msgKeyStr) := rfl

theorem checkEntries_head_badKey {allowed : List String} {nrows : Nat}
    {k : String} {vs : List Val} {rest : List (PyKey × List Val)}
    (hk : k ∉ allowed) :
    checkEntries allowed nrows ((PyKey.str k, vs) :: rest) =
      .error (.valueError msgKeyAllowed) := by
  unfold checkEntries
  dsimp only
  rw [if_pos hk]

theorem checkEntries_head_badLen {allowed : List String} {nrows : Nat}
    {k : String} {vs : List Val} {rest : List (PyKey × List Val)}
    (hk : k ∈ allowed) (hlen : vs.length ≠ nrows) :
    ∃ m, checkEntries allowed nrows ((PyKey.str k, vs) :: rest) =
      .error (.valueError m) := by
  unfold checkEntries
  dsimp only
  rw [if_neg (show ¬(k ∉ allowed) from fun hq => hq hk)]
  by_cases h0 : vs.length = 0
  · exact ⟨msgMinSamples, by rw [if_pos h0]⟩
  · exact ⟨msgShape0, by rw [if_neg h0, if_pos hlen]⟩

theorem lookupKey_none_of_no_key {es : List (PyKey × List Val)} {v : String}
    (h : ∀ p ∈ es, p.1 ≠ PyKey.str v) : lookupKey es v = none := by
  induction es with
  | nil => rfl
  | cons e et ih =>
    match e with
    | (PyKey.nonStr, vs) =>
      unfold lookupKey
      exact ih (fun p hp => h p (by simp [hp]))
    | (PyKey.str s, vs) =>
      unfold lookupKey
      rw [if_neg (fun hh : s = v => h (PyKey.str s, vs) (by simp) (by rw [hh]))]
      exact ih (fun p hp => h p (by simp [hp]))

theorem applyExog_ok_index {l : List (String × List Val)} {g g2 : DataFrame}
    (h : applyExog g l = .ok g2) : g2.index = g.index := by
  induction l generalizing g with
  | nil => simp [applyExog] at h; rw [h]
  | cons e et ih =>
    match e with
    | (n, vs) =>
      unfold applyExog at h
      cases hs : g.setColE n vs with
      | error e2 => rw [hs] at h; exact absurd h (by simp)
      | ok g3 =>
        rw [hs] at h
        rw [ih h, setColE_ok_index hs]

theorem reindexCols_names {oldIdx idx : List Int} {cs l : List ColSpec}
    (h : reindexCols oldIdx idx cs = .ok l) :
    l.map (fun c => c.name) = cs.map (fun c => c.name) := by
  induction cs generalizing l with
  | nil => simp [reindexCols] at h; subst h; rfl
  | cons c ct ih =>
    unfold reindexCols at h
    cases hv : reindexVals oldIdx c.values idx with
    | error e => rw [hv] at h; exact absurd h (by simp)
    | ok vs =>
      rw [hv] at h
      cases hrest : reindexCols oldIdx idx ct with
      | error e => rw [hrest] at h; exact absurd h (by simp)
      | ok rest =>
        rw [hrest] at h
        simp at h
        subst h
        simp [ih hrest]

/-- Shape of a successful `.loc` reselection: requested index, requested
column names in the requested order. -/
theorem locSelectE_ok_shape {df : DataFrame} {idx : List Int} {ns : List String}
    {t : DataFrame} (h : df.locSelectE idx ns = .ok t) :
    t.index = idx ∧ t.colNames = ns := by
  unfold DataFrame.locSelectE at h
  cases hs : selectCols df.cols ns with
  | error e => rw [hs] at h; exact absurd h (by simp)
  | ok cs =>
    rw [hs] at h
    dsimp only at h
    split at h
    · simp at h
      subst h
      exact ⟨rfl, selectCols_names hs⟩
    · cases hr : reindexCols df.index idx cs with
      | error e => rw [hr] at h; exact absurd h (by simp)
      | ok cs2 =>
        rw [hr] at h
        dsimp only at h
        simp at h
        subst h
        refine ⟨rfl, ?_⟩
        unfold DataFrame.colNames
        dsimp only
        rw [reindexCols_names hr, selectCols_names hs]

/-- Value-preserving form of `.loc` when the requested index is the frame
own index: every requested column is looked up unchanged. -/
theorem locSelectE_getCol_of_eq_index {df : DataFrame} {ns : List String}
    {t : DataFrame} (h : df.locSelectE df.index ns = .ok t) (v : String) :
    t.getCol v = if v ∈ ns then df.getCol v else none := by
  unfold DataFrame.locSelectE at h
  cases hs : selectCols df.cols ns with
  | error e => rw [hs] at h; exact absurd h (by simp)
  | ok cs =>
    rw [hs] at h
    dsimp only at h
    rw [if_pos rfl] at h
    simp at h
    subst h
    unfold DataFrame.getCol
    exact findCol_selectCols hs v

/-! ### Behaviour of the variable-resolution block -/

/-- Whatever branch runs, `resolveVar` keeps the row index and leaves every
other column untouched. -/
theorem resolveVar_ok_preserves {Xo : DataFrame} {vn : String} {fns : List String}
    {mo : Option Model} {endog : List (String × List Val)} {cust : Option Callable}
    {wrap : String → String} {g : DataFrame} {rng : RNG} {p : DataFrame × RNG}
    (h : resolveVar Xo vn fns mo endog cust wrap g rng = .ok p) :
    p.1.index = g.index ∧ ∀ v, v ≠ vn → p.1.getCol v = g.getCol v := by
  unfold resolveVar at h
  cases hlk : endog.lookup vn with
  | some vs =>
    rw [hlk] at h
    dsimp only at h
    cases hsc : g.setColE vn vs with
    | error e => rw [hsc] at h; exact absurd h (by simp)
    | ok g2 =>
      rw [hsc] at h
      simp at h
      rw [← h]
      exact ⟨setColE_ok_index hsc, fun v hv => setColE_getCol_ne hsc hv⟩
  | none =>
    rw [hlk] at h
    dsimp only at h
    cases cust with
    | some f =>
      dsimp only at h
      cases hF : g.selectE fns with
      | error e => rw [hF] at h; exact absurd h (by simp)
      | ok F =>
        rw [hF] at h
        dsimp only at h
        cases hcur : g.getSeriesE vn with
        | error e => rw [hcur] at h; exact absurd h (by simp)
        | ok cur =>
          rw [hcur] at h
          dsimp only at h
          cases hf : f F cur with
          | error e => rw [hf] at h; exact absurd h (by simp)
          | ok vs =>
            rw [hf] at h
            dsimp only at h
            cases hsc : g.setColE vn vs with
            | error e => rw [hsc] at h; exact absurd h (by simp)
            | ok g2 =>
              rw [hsc] at h
              simp at h
              rw [← h]
              by_cases hdt : Xo.colDtype vn = Dtype.category
              · rw [if_pos hdt]
                refine ⟨toCategorical_index.trans (setColE_ok_index hsc), fun v hv => ?_⟩
                rw [toCategorical_getCol_ne hv, setColE_getCol_ne hsc hv]
              · rw [if_neg hdt]
                exact ⟨setColE_ok_index hsc, fun v hv => setColE_getCol_ne hsc hv⟩
    | none =>
      dsimp only at h
      by_cases hdt : Xo.colDtype vn ≠ Dtype.category
      · rw [if_pos hdt] at h
        cases mo with
        | none => exact absurd h (by simp)
        | some m =>
          dsimp only at h
          cases hF : g.selectE fns with
          | error e => rw [hF] at h; exact absurd h (by simp)
          | ok F =>
            rw [hF] at h
            dsimp only at h
            cases ha : g.addToColE vn (m.predict F) with
            | error e => rw [ha] at h; exact absurd h (by simp)
            | ok g2 =>
              rw [ha] at h
              simp at h
              rw [← h]
              obtain ⟨c, vs, hc, hav, hsc⟩ := addToColE_ok_inv ha
              exact ⟨setColE_ok_index hsc, fun v hv => setColE_getCol_ne hsc hv⟩
      · rw [if_neg hdt] at h
        cases mo with
        | none => exact absurd h (by simp)
        | some m =>
          dsimp only at h
          cases hF : g.selectE fns with
          | error e => rw [hF] at h; exact absurd h (by simp)
          | ok F =>
            rw [hF] at h
            dsimp only at h
            cases hs : sampleAll m (m.predictProba F) rng with
            | error e => rw [hs] at h; exact absurd h (by simp)
            | ok lr =>
              rw [hs] at h
              dsimp only at h
              cases hsc : g.setColE vn (lr.1.map Val.cat) with
              | error e => rw [hsc] at h; exact absurd h (by simp)
              | ok g2 =>
                rw [hsc] at h
                simp at h
                rw [← h]
                refine ⟨toCategorical_index.trans (setColE_ok_index hsc), fun v hv => ?_⟩
                rw [toCategorical_getCol_ne hv, setColE_getCol_ne hsc hv]

/-- An endogenous intervention resolves the variable by plain column
assignment and leaves the random state untouched. -/
theorem resolveVar_endog_ok {Xo : DataFrame} {vn : String} {fns : List String}
    {mo : Option Model} {endog : List (String × List Val)} {cust : Option Callable}
    {wrap : String → String} {g : DataFrame} {rng : RNG} {p : DataFrame × RNG}
    {vs : List Val}
    (hlk : endog.lookup vn = some vs)
    (h : resolveVar Xo vn fns mo endog cust wrap g rng = .ok p) :
    g.setColE vn vs = .ok p.1 ∧ p.2 = rng := by
  unfold resolveVar at h
  rw [hlk] at h
  dsimp only at h
  cases hsc : g.setColE vn vs with
  | error e => rw [hsc] at h; exact absurd h (by simp)
  | ok g2 =>
    rw [hsc] at h
    simp at h
    subst h
    exact ⟨rfl, rfl⟩

/-- The fitted-model branch for a continuous variable: predict from the
feature columns and add the prediction to the noise column; no random draw
happens. -/
theorem resolveVar_cont_model_ok {Xo : DataFrame} {vn : String} {fns : List String}
    {m : Model} {endog : List (String × List Val)}
    {wrap : String → String} {g : DataFrame} {rng : RNG} {p : DataFrame × RNG}
    (hlk : endog.lookup vn = none) (hdt : Xo.colDtype vn ≠ Dtype.category)
    (h : resolveVar Xo vn fns (some m) endog none wrap g rng = .ok p) :
    ∃ F, g.selectE fns = .ok F ∧ g.addToColE vn (m.predict F) = .ok p.1 ∧ p.2 = rng := by
  unfold resolveVar at h
  rw [hlk] at h
  dsimp only at h
  rw [if_pos hdt] at h
  cases hF : g.selectE fns with
  | error e => rw [hF] at h; exact absurd h (by simp)
  | ok F =>
    rw [hF] at h
    dsimp only at h
    cases ha : g.addToColE vn (m.predict F) with
    | error e => rw [ha] at h; exact absurd h (by simp)
    | ok g2 =>
      rw [ha] at h
      simp at h
      subst h
      exact ⟨F, rfl, ha, rfl⟩

/-- The fitted-model branch for a categorical variable: per-row resampling
from the predicted probabilities, then the categorical recast. -/
theorem resolveVar_cat_model_ok {Xo : DataFrame} {vn : String} {fns : List String}
    {m : Model} {endog : List (String × List Val)}
    {wrap : String → String} {g : DataFrame} {rng : RNG} {p : DataFrame × RNG}
    (hlk : endog.lookup vn = none) (hdt : Xo.colDtype vn = Dtype.category)
    (h : resolveVar Xo vn fns (some m) endog none wrap g rng = .ok p) :
    ∃ F lr g2, g.selectE fns = .ok F ∧ sampleAll m (m.predictProba F) rng = .ok lr ∧
      g.setColE vn (lr.1.map Val.cat) = .ok g2 ∧
      p.1 = g2.toCategorical vn ∧ p.2 = lr.2 := by
  unfold resolveVar at h
  rw [hlk] at h
  dsimp only at h
  rw [if_neg (by rw [hdt]; exact fun hh => hh rfl)] at h
  cases hF : g.selectE fns with
  | error e => rw [hF] at h; exact absurd h (by simp)
  | ok F =>
    rw [hF] at h
    dsimp only at h
    cases hs : sampleAll m (m.predictProba F) rng with
    | error e => rw [hs] at h; exact absurd h (by simp)
    | ok lr =>
      rw [hs] at h
      dsimp only at h
      cases hsc : g.setColE vn (lr.1.map Val.cat) with
      | error e => rw [hsc] at h; exact absurd h (by simp)
      | ok g2 =>
        rw [hsc] at h
        simp at h
        subst h
        exact ⟨F, lr, g2, rfl, hs, hsc, rfl, rfl⟩

/-- Without a custom callable, a continuous variable never consumes the
random stream, whichever of the endogenous-override or fitted-model branches
runs. -/
theorem resolveVar_rng_of_cont {Xo : DataFrame} {vn : String} {fns : List String}
    {mo : Option Model} {endog : List (String × List Val)}
    {wrap : String → String} {g : DataFrame} {rng : RNG} {p : DataFrame × RNG}
    (hdt : Xo.colDtype vn ≠ Dtype.category)
    (h : resolveVar Xo vn fns mo endog none wrap g rng = .ok p) : p.2 = rng := by
  unfold resolveVar at h
  cases hlk : endog.lookup vn with
  | some vs =>
    rw [hlk] at h
    dsimp only at h
    cases hsc : g.setColE vn vs with
    | error e => rw [hsc] at h; exact absurd h (by simp)
    | ok g2 =>
      rw [hsc] at h
      simp at h
      rw [← h]
  | none =>
    rw [hlk] at h
    dsimp only at h
    rw [if_pos hdt] at h
    cases mo with
    | none => exact absurd h (by simp)
    | some m =>
      dsimp only at h
      cases hF : g.selectE fns with
      | error e => rw [hF] at h; exact absurd h (by simp)
      | ok F =>
        rw [hF] at h
        dsimp only at h
        cases ha : g.addToColE vn (m.predict F) with
        | error e => rw [ha] at h; exact absurd h (by simp)
        | ok g2 =>
          rw [ha] at h
          simp at h
          rw [← h]

theorem selectE_ok_index {df : DataFrame} {ns : List String} {g : DataFrame}
    (h : df.selectE ns = .ok g) : g.index = df.index := by
  unfold DataFrame.selectE at h
  cases hs : selectCols df.cols ns with
  | error e => rw [hs] at h; exact absurd h (by simp)
  | ok cs =>
    rw [hs] at h
    simp at h
    rw [← h]

theorem selectE_ok_getCol {df : DataFrame} {ns : List String} {g : DataFrame}
    (h : df.selectE ns = .ok g) (v : String) :
    g.getCol v = if v ∈ ns then df.getCol v else none := by
  unfold DataFrame.selectE at h
  cases hs : selectCols df.cols ns with
  | error e => rw [hs] at h; exact absurd h (by simp)
  | ok cs =>
    rw [hs] at h
    simp at h
    rw [← h]
    unfold DataFrame.getCol
    exact findCol_selectCols hs v

/-- Two frames with the same index that agree on every requested column
produce the same selection. -/
theorem selectE_congr {df1 df2 : DataFrame} {ns : List String}
    (hidx : df1.index = df2.index)
    (hcols : ∀ n ∈ ns, df1.getCol n = df2.getCol n) :
    df1.selectE ns = df2.selectE ns := by
  unfold DataFrame.selectE
  rw [selectCols_congr hcols, hidx]

theorem getSeriesE_ok_inv {df : DataFrame} {n : String} {s : Series}
    (h : df.getSeriesE n = .ok s) :
    s.name = n ∧ s.index = df.index ∧ s.dtype = df.colDtype n ∧
      s.values = df.colVals n ∧
      df.getCol n = some { name := n, dtype := s.dtype, values := s.values } := by
  unfold DataFrame.getSeriesE at h
  cases hc : df.getCol n with
  | none => rw [hc] at h; exact absurd h (by simp)
  | some c =>
    rw [hc] at h
    simp at h
    subst h
    have hname : c.name = n := findCol_name hc
    refine ⟨hname, rfl, ?_, ?_, ?_⟩
    · unfold DataFrame.colDtype
      rw [hc]
    · unfold DataFrame.colVals
      rw [hc]
    · cases c
      simp at hname ⊢
      exact hname

/-- Elements of the minuend of a successful elementwise subtraction are never
labels either (a label would have raised). -/
theorem subVals_src_no_cat {ys : List Val} {qs : List ℤ} {rs : List Val}
    (h : subVals ys qs = .ok rs) :
    ∀ v ∈ ys, (match v with | Val.cat _ => true | _ => false) = false := by
  induction ys generalizing qs rs with
  | nil => intro v hv; simp at hv
  | cons y yt ih =>
    cases qs with
    | nil => simp [subVals] at h
    | cons q qt =>
      cases y with
      | num a =>
        unfold subVals at h
        cases hs : subVals yt qt with
        | error e => rw [hs] at h; exact absurd h (by simp [Except.map])
        | ok rt =>
          intro v hv
          rcases List.mem_cons.mp hv with h1 | h2
          · subst h1; rfl
          · exact ih hs v h2
      | nan =>
        unfold subVals at h
        cases hs : subVals yt qt with
        | error e => rw [hs] at h; exact absurd h (by simp [Except.map])
        | ok rt =>
          intro v hv
          rcases List.mem_cons.mp hv with h1 | h2
          · subst h1; rfl
          · exact ih hs v h2
      | cat s => simp [subVals] at h

theorem subVals_src_inferDtype {ys : List Val} {qs : List ℤ} {rs : List Val}
    (h : subVals ys qs = .ok rs) : inferDtype ys = Dtype.numeric := by
  unfold inferDtype
  rw [if_neg]
  simp only [List.any_eq_true, not_exists]
  intro v hc
  have h2 := subVals_src_no_cat h v hc.1
  rw [h2] at hc
  exact Bool.false_ne_true hc.2

/-- Inversion of `_make_model`: the residual series is named and indexed like
the target, and is the all-NaN placeholder for a categorical target or the
observed-minus-predicted series for a continuous one. -/
theorem makeModel_ok_inv {lib : SkLib} {X : DataFrame} {y : Series} {nm : String}
    {model : Option Estimator} {m : Model} {rs : Series}
    (h : makeModel lib X y nm model = .ok (m, rs)) :
    rs.name = y.name ∧ rs.index = y.index ∧ rs.dtype = Dtype.numeric ∧
    ((y.dtype = Dtype.category ∧ rs.values = List.replicate X.nrows Val.nan) ∨
     (y.dtype ≠ Dtype.category ∧ subVals y.values (m.predict X) = .ok rs.values)) := by
  unfold makeModel at h
  split at h
  · exact absurd h (by simp)
  · rename_i m2 hm2
    by_cases hdt : y.dtype = Dtype.category
    · rw [if_pos hdt] at h
      dsimp only at h
      split at h
      · rename_i hlen
        simp at h
        refine ⟨?_, ?_, ?_, Or.inl ⟨hdt, ?_⟩⟩ <;> rw [← h.2]
      · exact absurd h (by simp)
    · rw [if_neg hdt] at h
      cases hsub : subVals y.values (m2.predict X) with
      | error e => rw [hsub] at h; exact absurd h (by simp)
      | ok resids =>
        rw [hsub] at h
        dsimp only at h
        split at h
        · rename_i hlen
          simp at h
          refine ⟨?_, ?_, ?_, Or.inr ⟨hdt, ?_⟩⟩
          · rw [← h.2]
          · rw [← h.2]
          · rw [← h.2]
          · rw [← h.2]
            simp
            rw [← h.1]
            exact hsub
        · exact absurd h (by simp)

/-! ### Inversion of a successful `generate` and a successful `fit` -/

/-- A successful `generate` decomposes into its pipeline of steps exactly as
written at cdg.py lines 174-259. -/
theorem generate_ok_inv {st : FittedState} {rng : RNG} {ien iex : DictInput}
    {cm em : Option Callable} {t : DataFrame} {r : RNG}
    (h : generate st rng ien iex cm em = .ok (t, r)) :
    ∃ endog exog g0 g1 g2 g3 cr er,
      checkDataDict (st.cause :: st.effect :: st.adjustments) st.X.nrows ien = .ok endog ∧
      checkDataDict (st.cause :: st.effect :: st.adjustments) st.X.nrows iex = .ok exog ∧
      st.X.selectE (st.cause :: st.effect :: st.adjustments) = .ok g0 ∧
      g0.setColE st.cause st.error_cause.values = .ok g1 ∧
      g1.setColE st.effect st.error_effect.values = .ok g2 ∧
      applyExog g2 exog = .ok g3 ∧
      resolveVar st.X st.cause st.adjustments st.model_cause endog
        cm wrapCauseModel g3 rng = .ok cr ∧
      resolveVar st.X st.effect (st.cause :: st.adjustments) (some st.model_effect)
        endog em wrapEffectModel cr.1 cr.2 = .ok er ∧
      er.1.locSelectE st.X.index st.X.colNames = .ok t ∧ er.2 = r := by
  unfold generate at h
  cases h1 : checkDataDict (st.cause :: st.effect :: st.adjustments) st.X.nrows ien with
  | error e => rw [h1] at h; exact absurd h (by simp)
  | ok endog =>
    rw [h1] at h
    dsimp only at h
    cases h2 : checkDataDict (st.cause :: st.effect :: st.adjustments) st.X.nrows iex with
    | error e => rw [h2] at h; exact absurd h (by simp)
    | ok exog =>
      rw [h2] at h
      dsimp only at h
      cases h3 : st.X.selectE (st.cause :: st.effect :: st.adjustments) with
      | error e => rw [h3] at h; exact absurd h (by simp)
      | ok g0 =>
        rw [h3] at h
        dsimp only at h
        cases h4 : g0.setColE st.cause st.error_cause.values with
        | error e => rw [h4] at h; exact absurd h (by simp)
        | ok g1 =>
          rw [h4] at h
          dsimp only at h
          cases h5 : g1.setColE st.effect st.error_effect.values with
          | error e => rw [h5] at h; exact absurd h (by simp)
          | ok g2 =>
            rw [h5] at h
            dsimp only at h
            cases h6 : applyExog g2 exog with
            | error e => rw [h6] at h; exact absurd h (by simp)
            | ok g3 =>
              rw [h6] at h
              dsimp only at h
              cases h7 : resolveVar st.X st.cause st.adjustments st.model_cause endog
                  cm wrapCauseModel g3 rng with
              | error e => rw [h7] at h; exact absurd h (by simp)
              | ok cr =>
                rw [h7] at h
                dsimp only at h
                cases h8 : resolveVar st.X st.effect (st.cause :: st.adjustments)
                    (some st.model_effect) endog em wrapEffectModel cr.1 cr.2 with
                | error e => rw [h8] at h; exact absurd h (by simp)
                | ok er =>
                  rw [h8] at h
                  dsimp only at h
                  cases h9 : er.1.locSelectE st.X.index st.X.colNames with
                  | error e => rw [h9] at h; exact absurd h (by simp)
                  | ok out =>
                    rw [h9] at h
                    simp at h
                    exact ⟨endog, exog, g0, g1, g2, g3, cr, er, rfl, rfl, rfl, h4,
                      h5, h6, h7, h8, by rw [← h.1]; exact h9, h.2⟩

/-- A successful `fit` decomposes into the validation steps and the model /
residual constructions of cdg.py lines 76-129, and determines every stored
field. -/
theorem fit_ok_inv {lib : SkLib} {Xdf : DataFrame} {cause effect : String}
    {adjI : AdjInput} {mc me : Option Estimator} {st : FittedState}
    (h : fit lib (.df Xdf) cause effect adjI mc me = .ok st) :
    checkArrayX Xdf = .ok () ∧ cause ∈ Xdf.colNames ∧ effect ∈ Xdf.colNames ∧
    st.X = Xdf ∧ st.cause = cause ∧ st.effect = effect ∧
    checkArrayAdj adjI = .ok st.adjustments ∧
    checkOptEstimator mc (Xdf.colDtype cause = Dtype.category) = .ok () ∧
    checkOptEstimator me (Xdf.colDtype effect = Dtype.category) = .ok () ∧
    ((st.adjustments = [] ∧ st.model_cause = none ∧
        Xdf.getSeriesE cause = .ok st.error_cause) ∨
     (st.adjustments ≠ [] ∧ ∃ F yc m2, Xdf.selectE st.adjustments = .ok F ∧
        Xdf.getSeriesE cause = .ok yc ∧
        makeModel lib F yc strModelCause mc = .ok (m2, st.error_cause) ∧
        st.model_cause = some m2)) ∧
    (∃ Fe ye, Xdf.selectE (cause :: st.adjustments) = .ok Fe ∧
       Xdf.getSeriesE effect = .ok ye ∧
       makeModel lib Fe ye strModelEffect me = .ok (st.model_effect, st.error_effect)) := by
  unfold fit at h
  dsimp only at h
  cases h1 : checkArrayX Xdf with
  | error e => rw [h1] at h; exact absurd h (by simp)
  | ok u =>
    rw [h1] at h
    dsimp only at h
    by_cases hc : cause ∈ Xdf.colNames
    · rw [if_pos hc] at h
      by_cases he : effect ∈ Xdf.colNames
      · rw [if_pos he] at h
        cases h2 : checkArrayAdj adjI with
        | error e => rw [h2] at h; exact absurd h (by simp)
        | ok adj =>
          rw [h2] at h
          dsimp only at h
          cases h3 : checkOptEstimator mc (Xdf.colDtype cause = Dtype.category) with
          | error e => rw [h3] at h; exact absurd h (by simp)
          | ok u2 =>
            rw [h3] at h
            dsimp only at h
            cases h4 : checkOptEstimator me (Xdf.colDtype effect = Dtype.category) with
            | error e => rw [h4] at h; exact absurd h (by simp)
            | ok u3 =>
              rw [h4] at h
              dsimp only at h
              by_cases hlen : adj.length = 0
              · rw [if_pos hlen] at h
                cases h5 : Xdf.getSeriesE cause with
                | error e => rw [h5] at h; exact absurd h (by simp)
                | ok yc =>
                  rw [h5] at h
                  dsimp only at h
                  cases h6 : Xdf.selectE (cause :: adj) with
                  | error e => rw [h6] at h; exact absurd h (by simp)
                  | ok Fe =>
                    rw [h6] at h
                    dsimp only at h
                    cases h7 : Xdf.getSeriesE effect with
                    | error e => rw [h7] at h; exact absurd h (by simp)
                    | ok ye =>
                      rw [h7] at h
                      dsimp only at h
                      cases h8 : makeModel lib Fe ye strModelEffect me with
                      | error e => rw [h8] at h; exact absurd h (by simp)
                      | ok er2 =>
                        rw [h8] at h
                        simp at h
                        subst h
                        exact ⟨rfl, hc, he, rfl, rfl, rfl, rfl, rfl, rfl,
                          Or.inl ⟨List.length_eq_zero.mp hlen, rfl, rfl⟩,
                          Fe, ye, h6, rfl, h8⟩
              · rw [if_neg hlen] at h
                cases h5 : Xdf.selectE adj with
                | error e => rw [h5] at h; exact absurd h (by simp)
                | ok F =>
                  rw [h5] at h
                  dsimp only at h
                  cases h6 : Xdf.getSeriesE cause with
                  | error e => rw [h6] at h; exact absurd h (by simp)
                  | ok yc =>
                    rw [h6] at h
                    dsimp only at h
                    cases h7 : makeModel lib F yc strModelCause mc with
                    | error e => rw [h7] at h; exact absurd h (by simp)
                    | ok mr =>
                      rw [h7] at h
                      dsimp only at h
                      cases h8 : Xdf.selectE (cause :: adj) with
                      | error e => rw [h8] at h; exact absurd h (by simp)
                      | ok Fe =>
                        rw [h8] at h
                        dsimp only at h
                        cases h9 : Xdf.getSeriesE effect with
                        | error e => rw [h9] at h; exact absurd h (by simp)
                        | ok ye =>
                          rw [h9] at h
                          dsimp only at h
                          cases h10 : makeModel lib Fe ye strModelEffect me with
                          | error e => rw [h10] at h; exact absurd h (by simp)
                          | ok er2 =>
                            rw [h10] at h
                            simp at h
                            subst h
                            exact ⟨rfl, hc, he, rfl, rfl, rfl, rfl, rfl, rfl,
                              Or.inr ⟨fun hh => hlen (by rw [show adj = [] from hh]; rfl),
                                F, yc, mr.1, h5, rfl, h7, rfl⟩,
                              Fe, ye, h8, rfl, h10⟩
      · rw [if_neg he] at h
        exact absurd h (by simp)
    · rw [if_neg hc] at h
      exact absurd h (by simp)

theorem colVals_of_getCol {df : DataFrame} {n : String} {c : ColSpec}
    (h : df.getCol n = some c) : df.colVals n = c.values := by
  unfold DataFrame.colVals
  rw [h]

/-- The row index survives every step of the `generate` pipeline, so the
final `.loc` reselection runs with the frame own index. -/
theorem generate_pipeline_index {st : FittedState} {g0 g1 g2 g3 : DataFrame}
    {exog : List (String × List Val)} {cr er : DataFrame × RNG}
    (h3 : st.X.selectE (st.cause :: st.effect :: st.adjustments) = .ok g0)
    (h4 : g0.setColE st.cause st.error_cause.values = .ok g1)
    (h5 : g1.setColE st.effect st.error_effect.values = .ok g2)
    (h6 : applyExog g2 exog = .ok g3)
    {endog : List (String × List Val)} {cm em : Option Callable}
    {rng : RNG}
    (h7 : resolveVar st.X st.cause st.adjustments st.model_cause endog
        cm wrapCauseModel g3 rng = .ok cr)
    (h8 : resolveVar st.X st.effect (st.cause :: st.adjustments) (some st.model_effect)
        endog em wrapEffectModel cr.1 cr.2 = .ok er) :
    er.1.index = st.X.index := by
  rw [(resolveVar_ok_preserves h8).1, (resolveVar_ok_preserves h7).1,
    applyExog_ok_index h6, setColE_ok_index h5, setColE_ok_index h4,
    selectE_ok_index h3]

/-! ### The claims -/

/-- Claim C2 (amended): whenever `generate` returns a table at all, the table
has exactly the column names of the fitted input, in the same order, and the
identical row index.  (The original claim also asserted that a table is
always returned; `claim2_counterexample` refutes that part: with a fit input
containing a column that is neither cause, effect nor adjustment, the final
`.loc` reselection raises a KeyError instead of returning a table.) -/
theorem claim2_generate_shape (st : FittedState) (rng : RNG)
    (interv_endog interv_exog : DictInput)
    (cause_model effect_model : Option Callable) (t : DataFrame) (r : RNG)
    (hg : generate st rng interv_endog interv_exog cause_model effect_model = .ok (t, r)) :
    t.colNames = st.X.colNames ∧ t.index = st.X.index := by
  obtain ⟨endog, exog, g0, g1, g2, g3, cr, er, h1, h2, h3, h4, h5, h6, h7, h8, h9, h10⟩ :=
    generate_ok_inv hg
  have h := locSelectE_ok_shape h9
  exact ⟨h.2, h.1⟩

/-- Witness for C2: the continuous scenario generates successfully and the
output shape matches the fit input. -/
theorem claim2_witness : XA.colNames = stA.X.colNames ∧ XA.index = stA.X.index :=
  claim2_generate_shape stA rng0 .noneD .noneD none none XA rng0 rfl

/-- Counterexample to claim C2 as frozen: `XB` has an extra column `"z"`
beyond cause/effect/adjustments; `fit` accepts it, but `generate` with no
interventions (a valid combination) raises a KeyError instead of returning a
table with `XB` columns. -/
theorem claim2_counterexample :
    isOkb fitB = true ∧
    generateAfterFit fitB rng0 .noneD .noneD none none = .error (.keyError nmZ) :=
  ⟨rfl, rfl⟩

/-- Claim C10: when the fitted cause and effect columns are both
non-categorical and no custom callables are supplied, a successful `generate`
leaves the instance random stream exactly where it was (the stream is
consumed only in the categorical resampling branches), so an immediately
repeated call with identical arguments returns the identical table. -/
theorem claim10_deterministic (lib : SkLib) (Xdf : DataFrame) (cause effect : String)
    (adjI : AdjInput) (mc me : Option Estimator) (st : FittedState) (rng : RNG)
    (interv_endog interv_exog : DictInput) (t : DataFrame) (r : RNG)
    (hfit : fit lib (.df Xdf) cause effect adjI mc me = .ok st)
    (hcd : Xdf.colDtype cause ≠ Dtype.category)
    (hed : Xdf.colDtype effect ≠ Dtype.category)
    (hg : generate st rng interv_endog interv_exog none none = .ok (t, r)) :
    r = rng ∧ generate st r interv_endog interv_exog none none = .ok (t, r) := by
  obtain ⟨hA, hc, he, hX, hcause, heffect, hadj, hmc, hme, hcb, heb⟩ := fit_ok_inv hfit
  obtain ⟨endog, exog, g0, g1, g2, g3, cr, er, h1, h2, h3, h4, h5, h6, h7, h8, h9, h10⟩ :=
    generate_ok_inv hg
  have hc2 : cr.2 = rng :=
    resolveVar_rng_of_cont (by rw [hX, hcause]; exact hcd) h7
  have he2 : er.2 = cr.2 :=
    resolveVar_rng_of_cont (by rw [hX, heffect]; exact hed) h8
  have hr : r = rng := by rw [← h10, he2, hc2]
  refine ⟨hr, ?_⟩
  subst hr
  exact hg

/-- Witness for C10: the continuous scenario returns the stream unchanged and
the repeated call reproduces the table. -/
theorem claim10_witness :
    rng0 = rng0 ∧ generate stA rng0 .noneD .noneD none none = .ok (XA, rng0) :=
  claim10_deterministic lib0 XA nmC nmE (.flat [nmA]) none none stA rng0
    .noneD .noneD XA rng0 rfl (by decide) (by decide) rfl

/-- Claim C4: an endogenous intervention on the cause or the effect makes the
corresponding output column exactly the supplied override array; the
variable generative mechanism is bypassed (the conclusion holds for every
choice of fitted models and custom callables). -/
theorem claim4_endog_override (lib : SkLib) (Xdf : DataFrame) (cause effect : String)
    (adjI : AdjInput) (mc me : Option Estimator) (st : FittedState) (rng : RNG)
    (endogEntries : List (PyKey × List Val)) (interv_exog : DictInput)
    (cause_model effect_model : Option Callable) (t : DataFrame) (r : RNG)
    (hfit : fit lib (.df Xdf) cause effect adjI mc me = .ok st)
    (hne : cause ≠ effect)
    (hg : generate st rng (.dict endogEntries) interv_exog
        cause_model effect_model = .ok (t, r)) :
    (∀ vs, lookupKey endogEntries cause = some vs → t.colVals cause = vs) ∧
    (∀ vs, lookupKey endogEntries effect = some vs → t.colVals effect = vs) := by
  obtain ⟨hA, hc, he, hX, hcause, heffect, hadj, hmc, hme, hcb, heb⟩ := fit_ok_inv hfit
  subst hcause
  subst heffect
  subst hX
  obtain ⟨endog, exog, g0, g1, g2, g3, cr, er, h1, h2, h3, h4, h5, h6, h7, h8, h9, h10⟩ :=
    generate_ok_inv hg
  have hlkA : ∀ v, endog.lookup v = lookupKey endogEntries v :=
    fun v => checkEntries_ok_lookup h1 v
  have hidx : er.1.index = st.X.index := generate_pipeline_index h3 h4 h5 h6 h7 h8
  rw [← hidx] at h9
  constructor
  · intro vs hvs
    have hlk : endog.lookup st.cause = some vs := by rw [hlkA]; exact hvs
    obtain ⟨hset, hrng⟩ := resolveVar_endog_ok hlk h7
    have hself : cr.1.getCol st.cause =
        some { name := st.cause, dtype := inferDtype vs, values := vs } :=
      setColE_getCol_self hset
    have hpres : er.1.getCol st.cause = cr.1.getCol st.cause :=
      (resolveVar_ok_preserves h8).2 st.cause hne
    have ht := locSelectE_getCol_of_eq_index h9 st.cause
    rw [if_pos hc, hpres, hself] at ht
    exact colVals_of_getCol ht
  · intro vs hvs
    have hlk : endog.lookup st.effect = some vs := by rw [hlkA]; exact hvs
    obtain ⟨hset, hrng⟩ := resolveVar_endog_ok hlk h8
    have hself : er.1.getCol st.effect =
        some { name := st.effect, dtype := inferDtype vs, values := vs } :=
      setColE_getCol_self hset
    have ht := locSelectE_getCol_of_eq_index h9 st.effect
    rw [if_pos he, hself] at ht
    exact colVals_of_getCol ht

/-- Claim C1: with empty `adjustments`, `fit` stores no cause model
(`model_cause_` is `None`) and the stored cause residual is exactly the raw
cause column; but the subsequent `generate()` call with no endogenous
intervention on the cause and no custom cause model does NOT leave the raw
value — it crashes with an AttributeError, because the model-based path
unconditionally calls `.predict` on the absent (`None`) model (cdg.py line
216).  The fit half of the claim holds; the generate half is contradicted by
the code. -/
theorem claim1_noadj_fit_and_generate :
    (fit lib0 (.df XA) nmC nmE .noAdj none none).map
        (fun st => (st.model_cause.isNone, st.error_cause)) =
      .ok (true, { name := nmC, dtype := Dtype.numeric, index := [10, 11],
                   values := [Val.num 5, Val.num 7] }) ∧
    generateAfterFit (fit lib0 (.df XA) nmC nmE .noAdj none none) rng0
        .noneD .noneD none none = .error (.attributeError msgNonePredict) :=
  ⟨rfl, rfl⟩

/-- Claim C7: after `fit`, the stored effect residual series carries the
effect column name and the input row index; for a continuous effect its
values are observed minus the fitted model prediction on the effect feature
frame, and for a categorical effect they are the all-NaN placeholder of the
input length.  When adjustments are non-empty the same holds for the cause
residual against the cause model. -/
theorem claim7_residual_series (lib : SkLib) (Xdf : DataFrame) (cause effect : String)
    (adjI : AdjInput) (mc me : Option Estimator) (st : FittedState)
    (hfit : fit lib (.df Xdf) cause effect adjI mc me = .ok st) :
    (st.error_effect.name = effect ∧ st.error_effect.index = Xdf.index) ∧
    (Xdf.colDtype effect ≠ Dtype.category →
      ∀ Fe, Xdf.selectE (cause :: st.adjustments) = .ok Fe →
        subVals (Xdf.colVals effect) (st.model_effect.predict Fe) =
          .ok st.error_effect.values) ∧
    (Xdf.colDtype effect = Dtype.category →
      st.error_effect.values = List.replicate Xdf.nrows Val.nan) ∧
    (st.adjustments ≠ [] →
      (st.error_cause.name = cause ∧ st.error_cause.index = Xdf.index) ∧
      (Xdf.colDtype cause ≠ Dtype.category →
        ∀ mC F, st.model_cause = some mC → Xdf.selectE st.adjustments = .ok F →
          subVals (Xdf.colVals cause) (mC.predict F) = .ok st.error_cause.values) ∧
      (Xdf.colDtype cause = Dtype.category →
        st.error_cause.values = List.replicate Xdf.nrows Val.nan)) := by
  obtain ⟨hA, hc, he, hX, hcause, heffect, hadj, hmc, hme, hcb, heb⟩ := fit_ok_inv hfit
  obtain ⟨Fe0, ye, hFe0, hye, hmmE⟩ := heb
  obtain ⟨hyname, hyidx, hydt, hyvals, hycol⟩ := getSeriesE_ok_inv hye
  obtain ⟨hrname, hridx, hrdt, hralt⟩ := makeModel_ok_inv hmmE
  have hFe0n : Fe0.nrows = Xdf.nrows := by
    unfold DataFrame.nrows
    rw [selectE_ok_index hFe0]
  refine ⟨⟨by rw [hrname, hyname], by rw [hridx, hyidx]⟩, ?_, ?_, ?_⟩
  · intro hdt Fe hFe
    rw [hFe0] at hFe
    injection hFe with hFe
    subst hFe
    rcases hralt with ⟨hcat, _⟩ | ⟨_, hsub⟩
    · rw [hydt] at hcat
      exact absurd hcat hdt
    · rw [hyvals] at hsub
      exact hsub
  · intro hdt
    rcases hralt with ⟨_, hvals⟩ | ⟨hncat, _⟩
    · rw [hvals, hFe0n]
    · rw [hydt] at hncat
      exact absurd hdt hncat
  · intro hne
    rcases hcb with ⟨hnil, _, _⟩ | ⟨_, F0, yc, mC0, hF0, hyc, hmmC, hmodC⟩
    · exact absurd hnil hne
    · obtain ⟨hcname, hcidx, hcdt, hcvals, hccol⟩ := getSeriesE_ok_inv hyc
      obtain ⟨hqname, hqidx, hqdt, hqalt⟩ := makeModel_ok_inv hmmC
      have hF0n : F0.nrows = Xdf.nrows := by
        unfold DataFrame.nrows
        rw [selectE_ok_index hF0]
      refine ⟨⟨by rw [hqname, hcname], by rw [hqidx, hcidx]⟩, ?_, ?_⟩
      · intro hdt mC F hmC hF
        rw [hmodC] at hmC
        injection hmC with hmC
        subst hmC
        rw [hF0] at hF
        injection hF with hF
        subst hF
        rcases hqalt with ⟨hcat, _⟩ | ⟨_, hsub⟩
        · rw [hcdt] at hcat
          exact absurd hcat hdt
        · rw [hcvals] at hsub
          exact hsub
      · intro hdt
        rcases hqalt with ⟨_, hvals⟩ | ⟨hncat, _⟩
        · rw [hvals, hF0n]
        · rw [hcdt] at hncat
          exact absurd hdt hncat

/-- Witness for C7: the continuous scenario gives exact
observed-minus-predicted residuals for effect and cause; the categorical
scenario gives all-NaN placeholders. -/
theorem claim7_witness :
    (stA.error_effect.name = nmE ∧ stA.error_effect.index = XA.index) ∧
    subVals (XA.colVals nmE)
        (stA.model_effect.predict
          { index := [10, 11],
            cols := [{ name := nmC, dtype := Dtype.numeric, values := [.num 5, .num 7] },
                     { name := nmA, dtype := Dtype.numeric, values := [.num 1, .num 2] }] }) =
      .ok stA.error_effect.values ∧
    subVals (XA.colVals nmC)
        (constModel.predict
          { index := [10, 11],
            cols := [{ name := nmA, dtype := Dtype.numeric, values := [.num 1, .num 2] }] }) =
      .ok stA.error_cause.values ∧
    stD.error_effect.values = List.replicate XD.nrows Val.nan ∧
    stD.error_cause.values = List.replicate XD.nrows Val.nan := by
  have hA := claim7_residual_series lib0 XA nmC nmE (.flat [nmA]) none none stA rfl
  have hD := claim7_residual_series lib0 XD nmC nmE (.flat [nmA]) none none stD rfl
  exact ⟨hA.1,
    hA.2.1 (by decide) _ rfl,
    (hA.2.2.2 (by decide)).2.1 (by decide) constModel _ rfl rfl,
    hD.2.2.1 (by decide),
    (hD.2.2.2 (by decide)).2.2 (by decide)⟩

/-- Claim C5: `generate` rejects, for `interv_endog` and `interv_exog`
alike, a non-dict argument with a TypeError, a non-string key with a
TypeError, a key outside cause/effect/adjustments with a ValueError, and a
value whose length differs from the fitted row count with a ValueError — for
an offending entry at any position after entries that validate, and for any
allowed key.  Every such error is raised by the validation stage before the
working table is built: the conclusions hold for every custom callable and
every fitted model, and the exogenous cases require only that the endogenous
argument itself validates. -/
theorem claim5_intervention_validation (lib : SkLib) (Xdf : DataFrame)
    (cause effect : String) (adjI : AdjInput) (mc me : Option Estimator)
    (st : FittedState) (rng : RNG)
    (hfit : fit lib (.df Xdf) cause effect adjI mc me = .ok st) :
    (∀ iex cm em, isTypeErrorResult (generate st rng .notDict iex cm em) = true) ∧
    (∀ pre vs rest iex cm em,
        (∀ p ∈ pre, entryOkb (cause :: effect :: st.adjustments) Xdf.nrows p = true) →
        isTypeErrorResult
          (generate st rng (.dict (pre ++ (PyKey.nonStr, vs) :: rest)) iex cm em)
          = true) ∧
    (∀ pre k vs rest iex cm em,
        (∀ p ∈ pre, entryOkb (cause :: effect :: st.adjustments) Xdf.nrows p = true) →
        k ∉ cause :: effect :: st.adjustments →
        isValueErrorResult
          (generate st rng (.dict (pre ++ (PyKey.str k, vs) :: rest)) iex cm em)
          = true) ∧
    (∀ pre k vs rest iex cm em,
        (∀ p ∈ pre, entryOkb (cause :: effect :: st.adjustments) Xdf.nrows p = true) →
        k ∈ cause :: effect :: st.adjustments → vs.length ≠ Xdf.nrows →
        isValueErrorResult
          (generate st rng (.dict (pre ++ (PyKey.str k, vs) :: rest)) iex cm em)
          = true) ∧
    (∀ ien l cm em,
        checkDataDict (cause :: effect :: st.adjustments) Xdf.nrows ien = .ok l →
        isTypeErrorResult (generate st rng ien .notDict cm em) = true) ∧
    (∀ ien l pre vs rest cm em,
        checkDataDict (cause :: effect :: st.adjustments) Xdf.nrows ien = .ok l →
        (∀ p ∈ pre, entryOkb (cause :: effect :: st.adjustments) Xdf.nrows p = true) →
        isTypeErrorResult
          (generate st rng ien (.dict (pre ++ (PyKey.nonStr, vs) :: rest)) cm em)
          = true) ∧
    (∀ ien l pre k vs rest cm em,
        checkDataDict (cause :: effect :: st.adjustments) Xdf.nrows ien = .ok l →
        (∀ p ∈ pre, entryOkb (cause :: effect :: st.adjustments) Xdf.nrows p = true) →
        k ∉ cause :: effect :: st.adjustments →
        isValueErrorResult
          (generate st rng ien (.dict (pre ++ (PyKey.str k, vs) :: rest)) cm em)
          = true) ∧
    (∀ ien l pre k vs rest cm em,
        checkDataDict (cause :: effect :: st.adjustments) Xdf.nrows ien = .ok l →
        (∀ p ∈ pre, entryOkb (cause :: effect :: st.adjustments) Xdf.nrows p = true) →
        k ∈ cause :: effect :: st.adjustments → vs.length ≠ Xdf.nrows →
        isValueErrorResult
          (generate st rng ien (.dict (pre ++ (PyKey.str k, vs) :: rest)) cm em)
          = true) := by
  obtain ⟨hA, hc, he, hX, hcause, heffect, hadjck, hmc, hme, hcb, heb⟩ := fit_ok_inv hfit
  subst hcause
  subst heffect
  subst hX
  refine ⟨?_, ?_, ?_, ?_, ?_, ?_, ?_, ?_⟩
  · intro iex cm em
    rfl
  · intro pre vs rest iex cm em hpre
    have hcd : checkDataDict (st.cause :: st.effect :: st.adjustments) st.X.nrows
        (.dict (pre ++ (PyKey.nonStr, vs) :: rest)) = .error (.typeError msgKeyStr) :=
      checkEntries_append_error hpre checkEntries_head_nonStr
    unfold generate
    rw [hcd]
    rfl
  · intro pre k vs rest iex cm em hpre hk
    have hcd : checkDataDict (st.cause :: st.effect :: st.adjustments) st.X.nrows
        (.dict (pre ++ (PyKey.str k, vs) :: rest)) = .error (.valueError msgKeyAllowed) :=
      checkEntries_append_error hpre (checkEntries_head_badKey hk)
    unfold generate
    rw [hcd]
    rfl
  · intro pre k vs rest iex cm em hpre hk hlen
    obtain ⟨m, hm⟩ := checkEntries_head_badLen hk hlen
    have hcd : checkDataDict (st.cause :: st.effect :: st.adjustments) st.X.nrows
        (.dict (pre ++ (PyKey.str k, vs) :: rest)) = .error (.valueError m) :=
      checkEntries_append_error hpre hm
    unfold generate
    rw [hcd]
    rfl
  · intro ien l cm em hien
    unfold generate
    rw [hien]
    rfl
  · intro ien l pre vs rest cm em hien hpre
    have hcd : checkDataDict (st.cause :: st.effect :: st.adjustments) st.X.nrows
        (.dict (pre ++ (PyKey.nonStr, vs) :: rest)) = .error (.typeError msgKeyStr) :=
      checkEntries_append_error hpre checkEntries_head_nonStr
    unfold generate
    rw [hien]
    dsimp only
    rw [hcd]
    rfl
  · intro ien l pre k vs rest cm em hien hpre hk
    have hcd : checkDataDict (st.cause :: st.effect :: st.adjustments) st.X.nrows
        (.dict (pre ++ (PyKey.str k, vs) :: rest)) = .error (.valueError msgKeyAllowed) :=
      checkEntries_append_error hpre (checkEntries_head_badKey hk)
    unfold generate
    rw [hien]
    dsimp only
    rw [hcd]
    rfl
  · intro ien l pre k vs rest cm em hien hpre hk hlen
    obtain ⟨m, hm⟩ := checkEntries_head_badLen hk hlen
    have hcd : checkDataDict (st.cause :: st.effect :: st.adjustments) st.X.nrows
        (.dict (pre ++ (PyKey.str k, vs) :: rest)) = .error (.valueError m) :=
      checkEntries_append_error hpre hm
    unfold generate
    rw [hien]
    dsimp only
    rw [hcd]
    rfl

/-- Witness for C5: all eight rejection cases exercised on the fitted
continuous scenario, each offending entry sitting behind a fully valid
adjustment entry, with an effect-key length mismatch endogenously and a
cause-key length mismatch exogenously. -/
theorem claim5_witness :
    isTypeErrorResult (generate stA rng0 .notDict .noneD none none) = true ∧
    isTypeErrorResult (generate stA rng0
      (.dict [(PyKey.str nmA, [Val.num 1, Val.num 2]),
              (PyKey.nonStr, [Val.num 1, Val.num 2])]) .noneD none none) = true ∧
    isValueErrorResult (generate stA rng0
      (.dict [(PyKey.str nmA, [Val.num 1, Val.num 2]),
              (PyKey.str nmZ, [Val.num 1, Val.num 2])]) .noneD none none) = true ∧
    isValueErrorResult (generate stA rng0
      (.dict [(PyKey.str nmA, [Val.num 1, Val.num 2]),
              (PyKey.str nmE, [Val.num 1])]) .noneD none none) = true ∧
    isTypeErrorResult (generate stA rng0
      (.dict [(PyKey.str nmA, [Val.num 1, Val.num 2])]) .notDict none none) = true ∧
    isTypeErrorResult (generate stA rng0 .noneD
      (.dict [(PyKey.str nmA, [Val.num 1, Val.num 2]),
              (PyKey.nonStr, [Val.num 1, Val.num 2])]) none none) = true ∧
    isValueErrorResult (generate stA rng0 .noneD
      (.dict [(PyKey.str nmA, [Val.num 1, Val.num 2]),
              (PyKey.str nmZ, [Val.num 1, Val.num 2])]) none none) = true ∧
    isValueErrorResult (generate stA rng0 .noneD
      (.dict [(PyKey.str nmA, [Val.num 1, Val.num 2]),
              (PyKey.str nmC, [Val.num 1])]) none none) = true := by
  have h := claim5_intervention_validation lib0 XA nmC nmE (.flat [nmA]) none none stA rng0 rfl
  exact ⟨h.1 .noneD none none,
    h.2.1 [(PyKey.str nmA, [Val.num 1, Val.num 2])] [Val.num 1, Val.num 2] []
      .noneD none none (by decide),
    h.2.2.1 [(PyKey.str nmA, [Val.num 1, Val.num 2])] nmZ [Val.num 1, Val.num 2] []
      .noneD none none (by decide) (by decide),
    h.2.2.2.1 [(PyKey.str nmA, [Val.num 1, Val.num 2])] nmE [Val.num 1] []
      .noneD none none (by decide) (by decide) (by decide),
    h.2.2.2.2.1 (.dict [(PyKey.str nmA, [Val.num 1, Val.num 2])])
      [(nmA, [Val.num 1, Val.num 2])] none none rfl,
    h.2.2.2.2.2.1 .noneD [] [(PyKey.str nmA, [Val.num 1, Val.num 2])]
      [Val.num 1, Val.num 2] [] none none rfl (by decide),
    h.2.2.2.2.2.2.1 .noneD [] [(PyKey.str nmA, [Val.num 1, Val.num 2])] nmZ
      [Val.num 1, Val.num 2] [] none none rfl (by decide) (by decide),
    h.2.2.2.2.2.2.2 .noneD [] [(PyKey.str nmA, [Val.num 1, Val.num 2])] nmC
      [Val.num 1] [] none none rfl (by decide) (by decide) (by decide)⟩

/-- Claim C6 (amended): `fit` validates in order — non-DataFrame input raises
TypeError; then a table with fewer than two columns raises ValueError; then a
missing cause raises ValueError; then a missing effect raises ValueError; and
the `adjustments` argument is accepted both as a flat sequence and as a
rectangular nested sequence, the latter being flattened (the original claim
said non-flat input must be rejected; `claim6_counterexample` shows a nested
sequence is accepted). -/
theorem claim6_fit_validation_order (lib : SkLib) (cause effect : String)
    (adjI : AdjInput) (mc me : Option Estimator) :
    (fit lib .notDF cause effect adjI mc me = .error (.typeError msgXnotDF)) ∧
    (∀ Xdf : DataFrame, Xdf.index ≠ [] → Xdf.cols.length < 2 →
        fit lib (.df Xdf) cause effect adjI mc me = .error (.valueError msgMinFeatures)) ∧
    (∀ Xdf : DataFrame, Xdf.index ≠ [] → 2 ≤ Xdf.cols.length → cause ∉ Xdf.colNames →
        fit lib (.df Xdf) cause effect adjI mc me = .error (.valueError msgCauseMissing)) ∧
    (∀ Xdf : DataFrame, Xdf.index ≠ [] → 2 ≤ Xdf.cols.length → cause ∈ Xdf.colNames →
        effect ∉ Xdf.colNames →
        fit lib (.df Xdf) cause effect adjI mc me = .error (.valueError msgEffectMissing)) ∧
    (∀ (Xin : FitInput) (rows : List (List String)),
        fit lib Xin cause effect (.nested rows) mc me =
          fit lib Xin cause effect (.flat rows.flatten) mc me) := by
  refine ⟨rfl, ?_, ?_, ?_, ?_⟩
  · intro Xdf hidx hcols
    have hca : checkArrayX Xdf = .error (.valueError msgMinFeatures) := by
      unfold checkArrayX
      rw [if_neg (fun h0 => hidx (List.length_eq_zero.mp h0)), if_pos hcols]
    unfold fit
    dsimp only
    rw [hca]
  · intro Xdf hidx hcols hcn
    have hca : checkArrayX Xdf = .ok () := by
      unfold checkArrayX
      rw [if_neg (fun h0 => hidx (List.length_eq_zero.mp h0)),
        if_neg (Nat.not_lt.mpr hcols)]
    unfold fit
    dsimp only
    rw [hca]
    dsimp only
    rw [if_neg hcn]
  · intro Xdf hidx hcols hcn hen
    have hca : checkArrayX Xdf = .ok () := by
      unfold checkArrayX
      rw [if_neg (fun h0 => hidx (List.length_eq_zero.mp h0)),
        if_neg (Nat.not_lt.mpr hcols)]
    unfold fit
    dsimp only
    rw [hca]
    dsimp only
    rw [if_pos hcn, if_neg hen]
  · intro Xin rows
    cases Xin with
    | notDF => rfl
    | df X => rfl

/-- Witness for C6: each validation stage exercised on a concrete input, plus
the nested/flat agreement at a concrete nested argument. -/
theorem claim6_witness :
    fit lib0 .notDF nmC nmE .noAdj none none = .error (.typeError msgXnotDF) ∧
    fit lib0 (.df X1) nmC nmE .noAdj none none = .error (.valueError msgMinFeatures) ∧
    fit lib0 (.df XA) nmW nmE .noAdj none none = .error (.valueError msgCauseMissing) ∧
    fit lib0 (.df XA) nmC nmW .noAdj none none = .error (.valueError msgEffectMissing) ∧
    fit lib0 (.df XAB) nmC nmE (.nested [[nmA], [nmB]]) none none =
      fit lib0 (.df XAB) nmC nmE (.flat [nmA, nmB]) none none := by
  refine ⟨(claim6_fit_validation_order lib0 nmC nmE .noAdj none none).1,
    (claim6_fit_validation_order lib0 nmC nmE .noAdj none none).2.1 X1
      (by decide) (by decide),
    (claim6_fit_validation_order lib0 nmW nmE .noAdj none none).2.2.1 XA
      (by decide) (by decide) (by decide),
    (claim6_fit_validation_order lib0 nmC nmW .noAdj none none).2.2.2.1 XA
      (by decide) (by decide) (by decide) (by decide),
    (claim6_fit_validation_order lib0 nmC nmE .noAdj none none).2.2.2.2 (.df XAB)
      [[nmA], [nmB]]⟩

/-- Counterexample to claim C6 as frozen: a nested (non-flat) `adjustments`
sequence is not rejected — `fit` succeeds, flattening `[[a], [b]]` to
`[a, b]`. -/
theorem claim6_counterexample :
    isOkb (fit lib0 (.df XAB) nmC nmE (.nested [[nmA], [nmB]]) none none) = true := rfl

/-- Claim C9: an exception raised by a caller-supplied model `fit` during
`fit`, or by a custom `cause_model` / `effect_model` callable during
`generate`, is re-raised as a RuntimeError whose message names the failing
delegate (`model_cause`, `model_effect`, `cause_model`, `effect_model`) and
carries the underlying message verbatim; the call aborts with exactly that
error (no swallowing, no retry). -/
theorem claim9_delegate_failures :
    (∀ (lib : SkLib) (Xdf : DataFrame) (cause effect : String) (adj : List String)
       (estC : Estimator) (me : Option Estimator) (F : DataFrame) (yc : Series)
       (msg : String),
       checkArrayX Xdf = .ok () → cause ∈ Xdf.colNames → effect ∈ Xdf.colNames →
       adj ≠ [] →
       checkOptEstimator (some estC) (Xdf.colDtype cause = Dtype.category) = .ok () →
       checkOptEstimator me (Xdf.colDtype effect = Dtype.category) = .ok () →
       Xdf.selectE adj = .ok F → Xdf.getSeriesE cause = .ok yc →
       estC.fit F yc = .error msg →
       fit lib (.df Xdf) cause effect (.flat adj) (some estC) me =
         .error (.runtimeError (strModelCause ++ strFitSep ++ msg))) ∧
    (∀ (lib : SkLib) (Xdf : DataFrame) (cause effect : String)
       (estE : Estimator) (yc : Series) (Fe : DataFrame) (ye : Series) (msg : String),
       checkArrayX Xdf = .ok () → cause ∈ Xdf.colNames → effect ∈ Xdf.colNames →
       checkOptEstimator (some estE) (Xdf.colDtype effect = Dtype.category) = .ok () →
       Xdf.getSeriesE cause = .ok yc →
       Xdf.selectE [cause] = .ok Fe → Xdf.getSeriesE effect = .ok ye →
       estE.fit Fe ye = .error msg →
       fit lib (.df Xdf) cause effect .noAdj none (some estE) =
         .error (.runtimeError (strModelEffect ++ strFitSep ++ msg))) ∧
    (∀ (st : FittedState) (rng : RNG) (f : Callable) (em : Option Callable)
       (g0 g1 g2 F : DataFrame) (cur : Series) (msg : String),
       st.X.selectE (st.cause :: st.effect :: st.adjustments) = .ok g0 →
       g0.setColE st.cause st.error_cause.values = .ok g1 →
       g1.setColE st.effect st.error_effect.values = .ok g2 →
       g2.selectE st.adjustments = .ok F →
       g2.getSeriesE st.cause = .ok cur →
       f F cur = .error msg →
       generate st rng .noneD .noneD (some f) em =
         .error (.runtimeError (wrapCauseModel msg))) ∧
    (∀ (st : FittedState) (rng : RNG) (f : Callable) (vs : List Val)
       (g0 g1 g2 g4 Fe : DataFrame) (cur : Series) (msg : String),
       st.cause ≠ st.effect →
       vs.length ≠ 0 → vs.length = st.X.nrows →
       st.X.selectE (st.cause :: st.effect :: st.adjustments) = .ok g0 →
       g0.setColE st.cause st.error_cause.values = .ok g1 →
       g1.setColE st.effect st.error_effect.values = .ok g2 →
       g2.setColE st.cause vs = .ok g4 →
       g4.selectE (st.cause :: st.adjustments) = .ok Fe →
       g4.getSeriesE st.effect = .ok cur →
       f Fe cur = .error msg →
       generate st rng (.dict [(PyKey.str st.cause, vs)]) .noneD none (some f) =
         .error (.runtimeError (wrapEffectModel msg))) := by
  refine ⟨?_, ?_, ?_, ?_⟩
  · intro lib Xdf cause effect adj estC me F yc msg hA hc he hlen hce hme hF hyc hfail
    have hmm : makeModel lib F yc strModelCause (some estC) =
        .error (.runtimeError (strModelCause ++ strFitSep ++ msg)) := by
      unfold makeModel
      dsimp only
      rw [hfail]
    unfold fit
    dsimp only
    rw [hA]
    dsimp only
    rw [if_pos hc, if_pos he]
    dsimp only [checkArrayAdj]
    rw [hce]
    dsimp only
    rw [hme]
    dsimp only
    rw [if_neg (fun h0 => hlen (List.length_eq_zero.mp h0))]
    rw [hF]
    dsimp only
    rw [hyc]
    dsimp only
    rw [hmm]
  · intro lib Xdf cause effect estE yc Fe ye msg hA hc he hee hyc hFe hye hfail
    have hmm : makeModel lib Fe ye strModelEffect (some estE) =
        .error (.runtimeError (strModelEffect ++ strFitSep ++ msg)) := by
      unfold makeModel
      dsimp only
      rw [hfail]
    unfold fit
    dsimp only
    rw [hA]
    dsimp only
    rw [if_pos hc, if_pos he]
    dsimp only [checkArrayAdj]
    rw [hee]
    dsimp only
    rw [if_pos (show (([] : List String)).length = 0 from rfl)]
    rw [hyc]
    dsimp only
    rw [hFe]
    dsimp only
    rw [hye]
    dsimp only
    rw [hmm]
    rfl
  · intro st rng f em g0 g1 g2 F cur msg hg0 hs1 hs2 hF hcur hfail
    have hrv : resolveVar st.X st.cause st.adjustments st.model_cause []
        (some f) wrapCauseModel g2 rng =
        .error (.runtimeError (wrapCauseModel msg)) := by
      unfold resolveVar
      dsimp only [List.lookup]
      rw [hF]
      dsimp only
      rw [hcur]
      dsimp only
      rw [hfail]
    unfold generate
    dsimp only [checkDataDict]
    rw [hg0]
    dsimp only
    rw [hs1]
    dsimp only
    rw [hs2]
    dsimp only [applyExog]
    rw [hrv]
  · intro st rng f vs g0 g1 g2 g4 Fe cur msg hne h0 hlen hg0 hs1 hs2 hs4 hFe hcur hfail
    have hcd : checkDataDict (st.cause :: st.effect :: st.adjustments) st.X.nrows
        (.dict [(PyKey.str st.cause, vs)]) = .ok [(st.cause, vs)] := by
      show checkEntries (st.cause :: st.effect :: st.adjustments) st.X.nrows
        [(PyKey.str st.cause, vs)] = .ok [(st.cause, vs)]
      unfold checkEntries
      dsimp only
      rw [if_neg (show ¬(st.cause ∉ st.cause :: st.effect :: st.adjustments) by simp),
        if_neg h0, if_neg (fun hq => hq hlen)]
      rfl
    have hlk : List.lookup st.cause [(st.cause, vs)] = some vs := by
      simp [List.lookup]
    have hlke : List.lookup st.effect [(st.cause, vs)] = none := by
      have hb : (st.effect == st.cause) = false := by
        simp
        exact fun hq => hne hq.symm
      simp [List.lookup, hb]
    have hrvc : resolveVar st.X st.cause st.adjustments st.model_cause [(st.cause, vs)]
        none wrapCauseModel g2 rng = .ok (g4, rng) := by
      unfold resolveVar
      rw [hlk]
      dsimp only
      rw [hs4]
    have hrve : resolveVar st.X st.effect (st.cause :: st.adjustments)
        (some st.model_effect) [(st.cause, vs)] (some f) wrapEffectModel g4 rng =
        .error (.runtimeError (wrapEffectModel msg)) := by
      unfold resolveVar
      rw [hlke]
      dsimp only
      rw [hFe]
      dsimp only
      rw [hcur]
      dsimp only
      rw [hfail]
    unfold generate
    rw [hcd]
    dsimp only [checkDataDict]
    rw [hg0]
    dsimp only
    rw [hs1]
    dsimp only
    rw [hs2]
    dsimp only [applyExog]
    rw [hrvc]
    dsimp only
    rw [hrve]

/-- Witness for C9: concrete failing estimators and callables on the
continuous scenario produce exactly the four wrapped errors. -/
theorem claim9_witness :
    fit lib0 (.df XA) nmC nmE (.flat [nmA]) (some estBad) none =
      .error (.runtimeError (strModelCause ++ strFitSep ++ strBoom)) ∧
    fit lib0 (.df XA) nmC nmE .noAdj none (some estBad) =
      .error (.runtimeError (strModelEffect ++ strFitSep ++ strBoom)) ∧
    generate stA rng0 .noneD .noneD (some badCauseCallable) none =
      .error (.runtimeError (wrapCauseModel strCBoom)) ∧
    generate stA rng0 (.dict [(PyKey.str nmC, [Val.num 9, Val.num 9])]) .noneD
        none (some badEffectCallable) =
      .error (.runtimeError (wrapEffectModel strEBoom)) := by
  have h := claim9_delegate_failures
  refine ⟨h.1 lib0 XA nmC nmE [nmA] estBad none
      { index := [10, 11],
        cols := [{ name := nmA, dtype := Dtype.numeric, values := [.num 1, .num 2] }] }
      { name := nmC, dtype := Dtype.numeric, index := [10, 11],
        values := [.num 5, .num 7] }
      strBoom rfl (by decide) (by decide) (by decide) rfl rfl rfl rfl rfl, ?_, ?_, ?_⟩
  · exact h.2.1 lib0 XA nmC nmE estBad
      { name := nmC, dtype := Dtype.numeric, index := [10, 11],
        values := [.num 5, .num 7] }
      { index := [10, 11],
        cols := [{ name := nmC, dtype := Dtype.numeric, values := [.num 5, .num 7] }] }
      { name := nmE, dtype := Dtype.numeric, index := [10, 11],
        values := [.num 3, .num 4] }
      strBoom rfl (by decide) (by decide) rfl rfl rfl rfl rfl
  · exact h.2.2.1 stA rng0 badCauseCallable none
      { index := [10, 11],
        cols := [{ name := nmC, dtype := Dtype.numeric, values := [.num 5, .num 7] },
                 { name := nmE, dtype := Dtype.numeric, values := [.num 3, .num 4] },
                 { name := nmA, dtype := Dtype.numeric, values := [.num 1, .num 2] }] }
      { index := [10, 11],
        cols := [{ name := nmC, dtype := Dtype.numeric, values := [.num 5, .num 7] },
                 { name := nmE, dtype := Dtype.numeric, values := [.num 3, .num 4] },
                 { name := nmA, dtype := Dtype.numeric, values := [.num 1, .num 2] }] }
      { index := [10, 11],
        cols := [{ name := nmC, dtype := Dtype.numeric, values := [.num 5, .num 7] },
                 { name := nmE, dtype := Dtype.numeric, values := [.num 3, .num 4] },
                 { name := nmA, dtype := Dtype.numeric, values := [.num 1, .num 2] }] }
      { index := [10, 11],
        cols := [{ name := nmA, dtype := Dtype.numeric, values := [.num 1, .num 2] }] }
      { name := nmC, dtype := Dtype.numeric, index := [10, 11],
        values := [.num 5, .num 7] }
      strCBoom rfl rfl rfl rfl rfl rfl
  · exact h.2.2.2 stA rng0 badEffectCallable [Val.num 9, Val.num 9]
      { index := [10, 11],
        cols := [{ name := nmC, dtype := Dtype.numeric, values := [.num 5, .num 7] },
                 { name := nmE, dtype := Dtype.numeric, values := [.num 3, .num 4] },
                 { name := nmA, dtype := Dtype.numeric, values := [.num 1, .num 2] }] }
      { index := [10, 11],
        cols := [{ name := nmC, dtype := Dtype.numeric, values := [.num 5, .num 7] },
                 { name := nmE, dtype := Dtype.numeric, values := [.num 3, .num 4] },
                 { name := nmA, dtype := Dtype.numeric, values := [.num 1, .num 2] }] }
      { index := [10, 11],
        cols := [{ name := nmC, dtype := Dtype.numeric, values := [.num 5, .num 7] },
                 { name := nmE, dtype := Dtype.numeric, values := [.num 3, .num 4] },
                 { name := nmA, dtype := Dtype.numeric, values := [.num 1, .num 2] }] }
      { index := [10, 11],
        cols := [{ name := nmC, dtype := Dtype.numeric, values := [.num 9, .num 9] },
                 { name := nmE, dtype := Dtype.numeric, values := [.num 3, .num 4] },
                 { name := nmA, dtype := Dtype.numeric, values := [.num 1, .num 2] }] }
      { index := [10, 11],
        cols := [{ name := nmC, dtype := Dtype.numeric, values := [.num 9, .num 9] },
                 { name := nmA, dtype := Dtype.numeric, values := [.num 1, .num 2] }] }
      { name := nmE, dtype := Dtype.numeric, index := [10, 11],
        values := [.num 3, .num 4] }
      strEBoom (by decide) (by decide) (by decide) rfl rfl rfl rfl rfl rfl rfl

/-- Claim C8: when a categorical cause or effect is resolved through the
fitted classifier (no endogenous intervention on it, no custom callable),
every value in the generated column is one of the classifier known classes
(`classes_`), produced by the per-row weighted resampling loop; the residual
column is wholly replaced, never added to. -/
theorem claim8_categorical_labels (lib : SkLib) (Xdf : DataFrame) (cause effect : String)
    (adjI : AdjInput) (mc me : Option Estimator) (st : FittedState) (rng : RNG)
    (endogEntries : List (PyKey × List Val)) (interv_exog : DictInput)
    (t : DataFrame) (r : RNG)
    (hfit : fit lib (.df Xdf) cause effect adjI mc me = .ok st)
    (hne : cause ≠ effect)
    (hnoc : ∀ p ∈ endogEntries, p.1 ≠ PyKey.str cause)
    (hnoe : ∀ p ∈ endogEntries, p.1 ≠ PyKey.str effect)
    (hg : generate st rng (.dict endogEntries) interv_exog none none = .ok (t, r)) :
    (Xdf.colDtype cause = Dtype.category →
      ∀ v ∈ t.colVals cause, v ∈ (optClasses st.model_cause).map Val.cat) ∧
    (Xdf.colDtype effect = Dtype.category →
      ∀ v ∈ t.colVals effect, v ∈ st.model_effect.classes.map Val.cat) := by
  obtain ⟨hA, hc, he, hX, hcause, heffect, hadj, hmc, hme, hcb, heb⟩ := fit_ok_inv hfit
  subst hcause
  subst heffect
  subst hX
  obtain ⟨endog, exog, g0, g1, g2, g3, cr, er, h1, h2, h3, h4, h5, h6, h7, h8, h9, h10⟩ :=
    generate_ok_inv hg
  have hlkc : endog.lookup st.cause = none := by
    rw [checkEntries_ok_lookup h1]
    exact lookupKey_none_of_no_key hnoc
  have hlke : endog.lookup st.effect = none := by
    rw [checkEntries_ok_lookup h1]
    exact lookupKey_none_of_no_key hnoe
  have hidx : er.1.index = st.X.index := generate_pipeline_index h3 h4 h5 h6 h7 h8
  rw [← hidx] at h9
  constructor
  · intro hdt v hv
    cases hmc2 : st.model_cause with
    | none =>
      exfalso
      rw [hmc2] at h7
      unfold resolveVar at h7
      rw [hlkc] at h7
      dsimp only at h7
      rw [if_neg (fun hq => hq hdt)] at h7
      exact absurd h7 (by simp)
    | some m =>
      rw [hmc2] at h7
      obtain ⟨F, lr, gc2, hFsel, hsamp, hsetc, hcr1, hcr2⟩ :=
        resolveVar_cat_model_ok hlkc hdt h7
      have hcol : cr.1.getCol st.cause =
          some { name := st.cause, dtype := Dtype.category,
                 values := lr.1.map Val.cat } := by
        rw [hcr1, toCategorical_getCol_self, setColE_getCol_self hsetc]
        rfl
      have hpres : er.1.getCol st.cause = cr.1.getCol st.cause :=
        (resolveVar_ok_preserves h8).2 st.cause hne
      have ht := locSelectE_getCol_of_eq_index h9 st.cause
      rw [if_pos hc, hpres, hcol] at ht
      rw [colVals_of_getCol ht] at hv
      obtain ⟨cl, hclmem, hcleq⟩ := List.mem_map.mp hv
      exact List.mem_map.mpr ⟨cl, sampleAll_ok_mem hsamp cl hclmem, hcleq⟩
  · intro hdt v hv
    obtain ⟨F, lr, ge2, hFsel, hsamp, hsete, her1, her2⟩ :=
      resolveVar_cat_model_ok hlke hdt h8
    have hcol : er.1.getCol st.effect =
        some { name := st.effect, dtype := Dtype.category,
               values := lr.1.map Val.cat } := by
      rw [her1, toCategorical_getCol_self, setColE_getCol_self hsete]
      rfl
    have ht := locSelectE_getCol_of_eq_index h9 st.effect
    rw [if_pos he, hcol] at ht
    rw [colVals_of_getCol ht] at hv
    obtain ⟨cl, hclmem, hcleq⟩ := List.mem_map.mp hv
    exact List.mem_map.mpr ⟨cl, sampleAll_ok_mem hsamp cl hclmem, hcleq⟩

/-- Witness for C8: the categorical scenario generates successfully and the
sampled labels lie in the classifier class list. -/
theorem claim8_witness :
    Val.cat strU ∈ (optClasses stD.model_cause).map Val.cat ∧
    Val.cat strU ∈ stD.model_effect.classes.map Val.cat := by
  have h := claim8_categorical_labels lib0 XD nmC nmE (.flat [nmA]) none none stD rng0
    [] .noneD tD { seq := rng0.seq, pos := 4 } rfl (by decide)
    (fun p hp => absurd hp (List.not_mem_nil p))
    (fun p hp => absurd hp (List.not_mem_nil p)) rfl
  exact ⟨h.1 rfl (Val.cat strU) (by decide), h.2 rfl (Val.cat strU) (by decide)⟩

/-- Claim C3: for a fit with non-empty adjustments, continuous (numeric-dtype)
cause and effect, and — per the data-model invariant of spec section 3 —
cause/effect distinct and not among the adjustments, `generate()` with no
interventions and no custom models reproduces the original cause and effect
columns exactly: the stored residual is observed minus predicted, and
`generate` adds the same (deterministic) prediction back. -/
theorem claim3_no_intervention_roundtrip (lib : SkLib) (Xdf : DataFrame)
    (cause effect : String) (adjI : AdjInput) (mc me : Option Estimator)
    (st : FittedState) (rng : RNG) (t : DataFrame) (r : RNG)
    (hfit : fit lib (.df Xdf) cause effect adjI mc me = .ok st)
    (hadj : st.adjustments ≠ [])
    (hcd : Xdf.colDtype cause = Dtype.numeric)
    (hed : Xdf.colDtype effect = Dtype.numeric)
    (hca : cause ∉ st.adjustments) (hea : effect ∉ st.adjustments)
    (hne : cause ≠ effect)
    (hg : generate st rng .noneD .noneD none none = .ok (t, r)) :
    t.colVals cause = Xdf.colVals cause ∧ t.colVals effect = Xdf.colVals effect := by
  obtain ⟨hA, hc, he, hX, hcause, heffect, hadjck, hmc, hme, hcb, heb⟩ := fit_ok_inv hfit
  subst hcause
  subst heffect
  subst hX
  rcases hcb with ⟨hnil, hmn, hraw⟩ | ⟨hnonnil, F0, yc, mC, hF0, hyc, hmmC, hmodC⟩
  · exact absurd hnil hadj
  obtain ⟨Fe0, ye, hFe0, hye, hmmE⟩ := heb
  obtain ⟨hycname, hycidx, hycdt, hycvals, hyccol⟩ := getSeriesE_ok_inv hyc
  obtain ⟨hyename, hyeidx, hyedt, hyevals, hyecol⟩ := getSeriesE_ok_inv hye
  obtain ⟨hrcname, hrcidx, hrcdt, hrcalt⟩ := makeModel_ok_inv hmmC
  obtain ⟨hrename, hreidx, hredt, hrealt⟩ := makeModel_ok_inv hmmE
  rcases hrcalt with ⟨hcat, _⟩ | ⟨_, hsubC⟩
  · rw [hycdt, hcd] at hcat
    exact absurd hcat (by simp)
  rcases hrealt with ⟨hcat, _⟩ | ⟨_, hsubE⟩
  · rw [hyedt, hed] at hcat
    exact absurd hcat (by simp)
  obtain ⟨endog, exog, g0, g1, g2, g3, cr, er, h1, h2, h3, h4, h5, h6, h7, h8, h9, h10⟩ :=
    generate_ok_inv hg
  have hendog : endog = [] := by
    have hb : (Except.ok [] : Except PyError (List (String × List Val))) = .ok endog := h1
    injection hb with hb
    exact hb.symm
  have hexog : exog = [] := by
    have hb : (Except.ok [] : Except PyError (List (String × List Val))) = .ok exog := h2
    injection hb with hb
    exact hb.symm
  subst hendog
  subst hexog
  have hg3 : g3 = g2 := by
    unfold applyExog at h6
    injection h6 with hb
    exact hb.symm
  subst hg3
  have hg0get := selectE_ok_getCol h3
  have hg3adj : ∀ a ∈ st.adjustments, g3.getCol a = st.X.getCol a := by
    intro a ha
    rw [setColE_getCol_ne h5 (fun haq => hea (haq ▸ ha)),
      setColE_getCol_ne h4 (fun haq => hca (haq ▸ ha)),
      hg0get a, if_pos (by simp [ha])]
  have hg3idx : g3.index = st.X.index := by
    rw [setColE_ok_index h5, setColE_ok_index h4, selectE_ok_index h3]
  rw [hmodC] at h7
  have hdtc : st.X.colDtype st.cause ≠ Dtype.category := by
    rw [hcd]
    simp
  have hdte : st.X.colDtype st.effect ≠ Dtype.category := by
    rw [hed]
    simp
  have hlkc0 : List.lookup st.cause ([] : List (String × List Val)) = none := rfl
  obtain ⟨F2, hF2sel, haddc, hcr2⟩ := resolveVar_cont_model_ok hlkc0 hdtc h7
  have hF2eq : F2 = F0 := by
    rw [selectE_congr hg3idx hg3adj, hF0] at hF2sel
    injection hF2sel with hb
    exact hb.symm
  subst hF2eq
  obtain ⟨ccol, vs2, hccget, haddv, hsetc⟩ := addToColE_ok_inv haddc
  have hg3c : g3.getCol st.cause =
      some { name := st.cause, dtype := inferDtype st.error_cause.values,
             values := st.error_cause.values } := by
    rw [setColE_getCol_ne h5 hne, setColE_getCol_self h4]
  rw [hg3c] at hccget
  injection hccget with hccget
  subst hccget
  have hvs2 : vs2 = yc.values := by
    have hcan := subVals_addVals_cancel hsubC
    rw [hcan] at haddv
    injection haddv with hb
    exact hb.symm
  subst hvs2
  have hcrc : cr.1.getCol st.cause =
      some { name := st.cause, dtype := inferDtype yc.values, values := yc.values } :=
    setColE_getCol_self hsetc
  have hinf : inferDtype yc.values = Dtype.numeric := subVals_src_inferDtype hsubC
  have hXc : st.X.getCol st.cause =
      some { name := st.cause, dtype := Dtype.numeric, values := yc.values } := by
    rw [hyccol, hycdt, hcd]
  have hcrcX : cr.1.getCol st.cause = st.X.getCol st.cause := by
    rw [hcrc, hXc, hinf]
  have hcr1idx : cr.1.index = st.X.index := by
    rw [(resolveVar_ok_preserves h7).1, hg3idx]
  have hcradj : ∀ a ∈ st.adjustments, cr.1.getCol a = st.X.getCol a := by
    intro a ha
    rw [setColE_getCol_ne hsetc (fun haq => hca (haq ▸ ha)), hg3adj a ha]
  have hsel2 : cr.1.selectE (st.cause :: st.adjustments) =
      st.X.selectE (st.cause :: st.adjustments) := by
    apply selectE_congr hcr1idx
    intro n hn
    rcases List.mem_cons.mp hn with hn1 | hn2
    · rw [hn1]
      exact hcrcX
    · exact hcradj n hn2
  have hlke0 : List.lookup st.effect ([] : List (String × List Val)) = none := rfl
  obtain ⟨F3, hF3sel, hadde, hre2⟩ := resolveVar_cont_model_ok hlke0 hdte h8
  have hF3eq : F3 = Fe0 := by
    rw [hsel2, hFe0] at hF3sel
    injection hF3sel with hb
    exact hb.symm
  subst hF3eq
  obtain ⟨ecol, vs3, heeget, haddev, hsete⟩ := addToColE_ok_inv hadde
  have hcre : cr.1.getCol st.effect =
      some { name := st.effect, dtype := inferDtype st.error_effect.values,
             values := st.error_effect.values } := by
    rw [setColE_getCol_ne hsetc (fun hq => hne hq.symm), setColE_getCol_self h5]
  rw [hcre] at heeget
  injection heeget with heeget
  subst heeget
  have hvs3 : vs3 = ye.values := by
    have hcan := subVals_addVals_cancel hsubE
    rw [hcan] at haddev
    injection haddev with hb
    exact hb.symm
  subst hvs3
  have here : er.1.getCol st.effect =
      some { name := st.effect, dtype := inferDtype ye.values, values := ye.values } :=
    setColE_getCol_self hsete
  have herc : er.1.getCol st.cause = cr.1.getCol st.cause :=
    setColE_getCol_ne hsete hne
  have heridx : er.1.index = st.X.index := by
    rw [setColE_ok_index hsete, hcr1idx]
  rw [← heridx] at h9
  constructor
  · have ht := locSelectE_getCol_of_eq_index h9 st.cause
    rw [if_pos hc, herc, hcrcX, hXc] at ht
    rw [colVals_of_getCol ht, ← hycvals]
  · have ht := locSelectE_getCol_of_eq_index h9 st.effect
    rw [if_pos he, here] at ht
    rw [colVals_of_getCol ht, ← hyevals]

/-- Witness for C3: the continuous scenario round-trips exactly — the
generated table equals the fit input. -/
theorem claim3_witness :
    XA.colVals nmC = XA.colVals nmC ∧ XA.colVals nmE = XA.colVals nmE :=
  claim3_no_intervention_roundtrip lib0 XA nmC nmE (.flat [nmA]) none none stA rng0
    XA rng0 rfl (by decide) (by decide) (by decide) (by decide) (by decide) (by decide) rfl

/-- Witness for C4: both variables endogenously overridden in the continuous
scenario; the output columns are exactly the supplied arrays. -/
theorem claim4_witness :
    tC4.colVals nmC = [Val.num 9, Val.num 9] ∧ tC4.colVals nmE = [Val.num 8, Val.num 8] :=
  ⟨(claim4_endog_override lib0 XA nmC nmE (.flat [nmA]) none none stA rng0
      [(PyKey.str nmC, [Val.num 9, Val.num 9]), (PyKey.str nmE, [Val.num 8, Val.num 8])]
      .noneD none none tC4 rng0 rfl (by decide) rfl).1 [Val.num 9, Val.num 9] rfl,
   (claim4_endog_override lib0 XA nmC nmE (.flat [nmA]) none none stA rng0
      [(PyKey.str nmC, [Val.num 9, Val.num 9]), (PyKey.str nmE, [Val.num 8, Val.num 8])]
      .noneD none none tC4 rng0 rfl (by decide) rfl).2 [Val.num 8, Val.num 8] rfl⟩

end Cdg
